import Mathlib

/-!
# Summary statistics of the monitoring loop (`kvs/include/monitor/monitoring_utils.hpp`)

A shallow embedding of `struct SummaryStats` with its two member functions
`clear()` and `aggregate(SummaryStats ss)`.

Conventions of the embedding.

* `double` fields are values of an ordered field `R` with a floor function
  (exact arithmetic, no rounding, no NaN).  Taking `R := ℚ` gives an
  executable model; taking `R := ℝ` gives the real-number reading.
* The one place where a `double` is turned into an integer, the two
  `ceil(total / (threshold * capacity))` statements, is evaluated with the
  rounding of IEEE 754 double arithmetic (`roundDouble`), because there a
  rounding error of one unit in the last place changes the stored count.
* `unsigned` fields are natural numbers below `2^32`, `unsigned long long`
  fields natural numbers below `2^64`; every `+` / `+=` on them is taken
  modulo the width, as the C++ unsigned types do.
* `sqrt` comes from the C math library; `aggregate` takes it as a parameter.
* `fmax` / `fmin` are `max` / `min`, `ceil` is `Int.ceil`.
-/

namespace Fluent

/-- Modelled from the spec: the `Address` type is declared in a header that is not
part of the sources (`hash_ring.hpp` and its includes).  The spec describes it as
an identifier of a node or thread endpoint, compared by value; it is a string
here, and `Address()` is the empty string. -/
abbrev Address : Type := String

/-- The value of a default-constructed `Address()`. -/
def Address.empty : Address := ""

/-- The constant `kMaxMemoryNodeConsumption = 0.6`. -/
def kMaxMemoryNodeConsumption (R : Type) [LinearOrderedField R] : R := 0.6

/-- The constant `kMinMemoryNodeConsumption = 0.3`. -/
def kMinMemoryNodeConsumption (R : Type) [LinearOrderedField R] : R := 0.3

/-- The constant `kMaxEbsNodeConsumption = 0.75`. -/
def kMaxEbsNodeConsumption (R : Type) [LinearOrderedField R] : R := 0.75

/-- The constant `kMinEbsNodeConsumption = 0.5`. -/
def kMinEbsNodeConsumption (R : Type) [LinearOrderedField R] : R := 0.5

/-- Number of values of the 32-bit `unsigned` type. -/
def kUnsignedRange : ℕ := 2 ^ 32

/-- Number of values of the 64-bit `unsigned long long` type. -/
def kULongLongRange : ℕ := 2 ^ 64

/-- Addition of two `unsigned` values: wraps modulo `2^32`. -/
def addUnsigned (a b : ℕ) : ℕ := (a + b) % kUnsignedRange

/-- Addition of two `unsigned long long` values (the `unsigned` operand of a mixed
sum is promoted first): wraps modulo `2^64`. -/
def addULongLong (a b : ℕ) : ℕ := (a + b) % kULongLongRange

/-- Conversion of an integral `double` (the result of `ceil`) to `unsigned` as
the C++ language defines it: the value itself inside `[0, 2^32)`, and no result
(`none`) outside, where the conversion is undefined. -/
def doubleToUnsignedDefined (z : ℤ) : Option ℕ :=
  if 0 ≤ z ∧ z < (kUnsignedRange : ℤ) then some z.toNat else none

/-- Conversion of an integral `double` (the result of `ceil`) to `unsigned` as
x86-64 code performs it: a truncating conversion to a signed 64-bit integer, of
which the low 32 bits are kept; a value outside the signed 64-bit range yields
the pattern `0x8000000000000000`, whose low 32 bits are `0`.  Inside
`[0, 2^32)` this is the value itself; outside it is one platform's answer to a
conversion that the language leaves undefined. -/
def doubleToUnsigned (z : ℤ) : ℕ :=
  if -(2 : ℤ) ^ 63 ≤ z ∧ z < (2 : ℤ) ^ 63 then (z % (kUnsignedRange : ℤ)).toNat else 0

/-- Rounding of a number to the nearest integer, a tie going to the even
neighbour. -/
def roundHalfEven {R : Type} [LinearOrderedField R] [FloorRing R] (q : R) : ℤ :=
  if q - (⌊q⌋ : R) < 1 / 2 then ⌊q⌋
  else if 1 / 2 < q - (⌊q⌋ : R) then ⌊q⌋ + 1
  else if ⌊q⌋ % 2 = 0 then ⌊q⌋ else ⌊q⌋ + 1

/-- The `double` nearest to a number: rounding to a 53-bit significand, to
nearest, ties to even (IEEE 754 binary64 in its default rounding mode).  With
`e` the binary exponent of `x`, the significand `x / 2^(e-52)` lies in
`[2^52, 2^53)` and is rounded to an integer.  The exponent is not bounded:
overflow to infinity and the coarser spacing of subnormal numbers are outside
the model. -/
def roundDouble {R : Type} [LinearOrderedField R] [FloorRing R] (x : R) : R :=
  if x = 0 then 0
  else (roundHalfEven (x / (2 : R) ^ (Int.log 2 |x| - 52)) : R) * (2 : R) ^ (Int.log 2 |x| - 52)

/-- The value of the expression `total / (kMaxMemoryNodeConsumption * capacity)`
as the code computes it: the constant is the `double` nearest to `0.6`, the
product is rounded, the unsigned total is converted to `double`, and the quotient
is rounded.  Both the memory statement and the EBS statement of `aggregate` use
this expression with the same constant. -/
def requiredNodeQuotient {R : Type} [LinearOrderedField R] [FloorRing R] (total : ℕ)
    (capacity : R) : R :=
  roundDouble (roundDouble (total : R) /
    roundDouble (roundDouble (kMaxMemoryNodeConsumption R) * capacity))

/-- The fields of `struct SummaryStats`, in declaration order. -/
structure SummaryStats (R : Type) where
  key_access_cnt : ℕ
  key_access_mean : R
  key_access_std : R
  total_memory_count : ℕ
  total_memory_access : ℕ
  total_ebs_count : ℕ
  total_ebs_access : ℕ
  total_memory_consumption : ℕ
  total_ebs_consumption : ℕ
  max_memory_consumption_percentage : R
  max_ebs_consumption_percentage : R
  avg_memory_consumption_percentage : R
  avg_ebs_consumption_percentage : R
  memory_node_capacity : R
  ebs_node_capacity : R
  required_memory_node : ℕ
  required_ebs_node : ℕ
  max_memory_occupancy : R
  min_memory_occupancy : R
  avg_memory_occupancy : R
  sum_memory_occupancy : R
  cnt_memory_occupancy : ℕ
  max_ebs_occupancy : R
  min_ebs_occupancy : R
  avg_ebs_occupancy : R
  sum_ebs_occupancy : R
  cnt_ebs_occupancy : ℕ
  min_occupancy_memory_public_ip : Address
  min_occupancy_memory_private_ip : Address
  sum_latency : R
  cnt_latency : ℕ
  avg_latency : R
  total_throughput : R

namespace SummaryStats

variable {R : Type} [LinearOrderedField R] [FloorRing R]

/-- The representation invariant of the integer fields: each `unsigned` field is
below `2^32` and each `unsigned long long` field below `2^64`. -/
def InRange (s : SummaryStats R) : Prop :=
  s.key_access_cnt < kUnsignedRange ∧
  s.total_memory_count < kUnsignedRange ∧
  s.total_memory_access < kUnsignedRange ∧
  s.total_ebs_count < kUnsignedRange ∧
  s.total_ebs_access < kUnsignedRange ∧
  s.total_memory_consumption < kULongLongRange ∧
  s.total_ebs_consumption < kULongLongRange ∧
  s.required_memory_node < kUnsignedRange ∧
  s.required_ebs_node < kUnsignedRange ∧
  s.cnt_memory_occupancy < kUnsignedRange ∧
  s.cnt_ebs_occupancy < kUnsignedRange ∧
  s.cnt_latency < kUnsignedRange

/-- `void clear()`: every field is assigned except the two capacity fields, which
the function does not mention. -/
def clear (self : SummaryStats R) : SummaryStats R :=
  { key_access_cnt := 0
    key_access_mean := 0
    key_access_std := 0
    total_memory_count := 0
    total_memory_access := 0
    total_ebs_count := 0
    total_ebs_access := 0
    total_memory_consumption := 0
    total_ebs_consumption := 0
    max_memory_consumption_percentage := 0
    max_ebs_consumption_percentage := 0
    avg_memory_consumption_percentage := 0
    avg_ebs_consumption_percentage := 0
    memory_node_capacity := self.memory_node_capacity
    ebs_node_capacity := self.ebs_node_capacity
    required_memory_node := 0
    required_ebs_node := 0
    max_memory_occupancy := 0
    min_memory_occupancy := 1
    avg_memory_occupancy := 0
    sum_memory_occupancy := 0
    cnt_memory_occupancy := 0
    max_ebs_occupancy := 0
    min_ebs_occupancy := 1
    avg_ebs_occupancy := 0
    sum_ebs_occupancy := 0
    cnt_ebs_occupancy := 0
    min_occupancy_memory_public_ip := Address.empty
    min_occupancy_memory_private_ip := Address.empty
    sum_latency := 0
    cnt_latency := 0
    avg_latency := 0
    total_throughput := 0 }

/-- The constructor `SummaryStats() { clear(); }`.  The members have no
initialisers, so `clear()` runs on whatever the storage held; `raw` stands for
that initial content. -/
def construct (raw : SummaryStats R) : SummaryStats R := raw.clear

/-- `void aggregate(SummaryStats ss)`: `self` is the object before the call, the
result is the object after it.  The bindings follow the statements of the body
in order; a right-hand side that names a field reads the value that field has
at that point of the body. -/
def aggregate (sqrt : R → R) (self ss : SummaryStats R) : SummaryStats R :=
  let total : R :=
    (self.key_access_cnt : R) * self.key_access_mean + (ss.key_access_cnt : R) * ss.key_access_mean
  let key_access_cnt := addUnsigned self.key_access_cnt ss.key_access_cnt
  let key_access_mean : R := if key_access_cnt ≠ 0 then total / (key_access_cnt : R) else 0
  let key_access_std : R :=
    sqrt (self.key_access_std * self.key_access_std + ss.key_access_std * ss.key_access_std)
  let total_memory_count := addUnsigned self.total_memory_count ss.total_memory_count
  let total_memory_access := addUnsigned self.total_memory_access ss.total_memory_access
  let total_ebs_count := addUnsigned self.total_ebs_count ss.total_ebs_count
  let total_ebs_access := addUnsigned self.total_ebs_access ss.total_ebs_access
  let total_memory_consumption :=
    addULongLong self.total_memory_consumption ss.total_memory_consumption
  let total_ebs_consumption := addULongLong self.total_ebs_consumption ss.total_ebs_consumption
  let max_memory_consumption_percentage : R :=
    max self.max_memory_consumption_percentage ss.max_memory_consumption_percentage
  let max_ebs_consumption_percentage : R :=
    max self.max_ebs_consumption_percentage ss.max_ebs_consumption_percentage
  -- both operands are unsigned integers: the quotient is an integer division
  let avg_memory_consumption_percentage : R :=
    if total_memory_count ≠ 0 then ((total_memory_consumption / total_memory_count : ℕ) : R) else 0
  let avg_ebs_consumption_percentage : R :=
    if total_ebs_count ≠ 0 then ((total_ebs_consumption / total_ebs_count : ℕ) : R) else 0
  let memory_node_capacity : R := ss.memory_node_capacity
  let ebs_node_capacity : R := ss.ebs_node_capacity
  let required_memory_node : ℕ :=
    if memory_node_capacity ≠ 0 then
      doubleToUnsigned ⌈requiredNodeQuotient total_memory_consumption memory_node_capacity⌉
    else 0
  let required_ebs_node : ℕ :=
    if ebs_node_capacity ≠ 0 then
      doubleToUnsigned ⌈requiredNodeQuotient total_ebs_consumption ebs_node_capacity⌉
    else 0
  let replace : Prop := ss.min_memory_occupancy < self.min_memory_occupancy
  let min_occupancy_memory_public_ip : Address :=
    if replace then ss.min_occupancy_memory_public_ip else self.min_occupancy_memory_public_ip
  let min_occupancy_memory_private_ip : Address :=
    if replace then ss.min_occupancy_memory_private_ip else self.min_occupancy_memory_private_ip
  let max_memory_occupancy : R := max self.max_memory_occupancy ss.max_memory_occupancy
  let min_memory_occupancy : R := min self.min_memory_occupancy ss.min_memory_occupancy
  let sum_memory_occupancy : R := self.sum_memory_occupancy + ss.sum_memory_occupancy
  let cnt_memory_occupancy := addUnsigned self.cnt_memory_occupancy ss.cnt_memory_occupancy
  let avg_memory_occupancy : R :=
    if cnt_memory_occupancy ≠ 0 then sum_memory_occupancy / (cnt_memory_occupancy : R) else 0
  let max_ebs_occupancy : R := max self.max_ebs_occupancy ss.max_ebs_occupancy
  let min_ebs_occupancy : R := min self.min_ebs_occupancy ss.min_ebs_occupancy
  let sum_ebs_occupancy : R := self.sum_ebs_occupancy + ss.sum_ebs_occupancy
  let cnt_ebs_occupancy := addUnsigned self.cnt_ebs_occupancy ss.cnt_ebs_occupancy
  let avg_ebs_occupancy : R :=
    if cnt_ebs_occupancy ≠ 0 then sum_ebs_occupancy / (cnt_ebs_occupancy : R) else 0
  let sum_latency : R := self.sum_latency + ss.sum_latency
  let cnt_latency := addUnsigned self.cnt_latency ss.cnt_latency
  let avg_latency : R := if cnt_latency ≠ 0 then sum_latency / (cnt_latency : R) else 0
  let total_throughput : R := self.total_throughput + ss.total_throughput
  { key_access_cnt := key_access_cnt
    key_access_mean := key_access_mean
    key_access_std := key_access_std
    total_memory_count := total_memory_count
    total_memory_access := total_memory_access
    total_ebs_count := total_ebs_count
    total_ebs_access := total_ebs_access
    total_memory_consumption := total_memory_consumption
    total_ebs_consumption := total_ebs_consumption
    max_memory_consumption_percentage := max_memory_consumption_percentage
    max_ebs_consumption_percentage := max_ebs_consumption_percentage
    avg_memory_consumption_percentage := avg_memory_consumption_percentage
    avg_ebs_consumption_percentage := avg_ebs_consumption_percentage
    memory_node_capacity := memory_node_capacity
    ebs_node_capacity := ebs_node_capacity
    required_memory_node := required_memory_node
    required_ebs_node := required_ebs_node
    max_memory_occupancy := max_memory_occupancy
    min_memory_occupancy := min_memory_occupancy
    avg_memory_occupancy := avg_memory_occupancy
    sum_memory_occupancy := sum_memory_occupancy
    cnt_memory_occupancy := cnt_memory_occupancy
    max_ebs_occupancy := max_ebs_occupancy
    min_ebs_occupancy := min_ebs_occupancy
    avg_ebs_occupancy := avg_ebs_occupancy
    sum_ebs_occupancy := sum_ebs_occupancy
    cnt_ebs_occupancy := cnt_ebs_occupancy
    min_occupancy_memory_public_ip := min_occupancy_memory_public_ip
    min_occupancy_memory_private_ip := min_occupancy_memory_private_ip
    sum_latency := sum_latency
    cnt_latency := cnt_latency
    avg_latency := avg_latency
    total_throughput := total_throughput }

/-- The aggregator's loop: one `aggregate` call per polled node, in order. -/
def aggregateAll (sqrt : R → R) (acc : SummaryStats R) (nodes : List (SummaryStats R)) :
    SummaryStats R :=
  nodes.foldl (aggregate sqrt) acc

/-! ### The same body with every division checked -/

/-- A floating-point division `a / b` that records a zero divisor: `none` when
`b` is `0`, the quotient otherwise. -/
def checkedDiv (a b : R) : Option R := if b = 0 then none else some (a / b)

/-- An unsigned integer division `a / b` that records a zero divisor: `none`
when `b` is `0`, the truncated quotient otherwise. -/
def checkedDivNat (a b : ℕ) : Option ℕ := if b = 0 then none else some (a / b)

/-- The guarded statement `if (n != 0) x = a / n; else x = 0;` with a `double`
numerator and an `unsigned` divisor: the value assigned to `x`, or `none` if the
division is executed with a zero divisor. -/
def guardedQuotient (a : R) (n : ℕ) : Option R :=
  if n ≠ 0 then checkedDiv a (n : R) else some 0

/-- The guarded statement `if (n != 0) x = t / n; else x = 0;` with both operands
unsigned integers and `x` a `double`: the value assigned to `x`, or `none` if the
division is executed with a zero divisor. -/
def guardedQuotientNat (t n : ℕ) : Option R :=
  if n ≠ 0 then (checkedDivNat t n).map (Nat.cast : ℕ → R) else some 0

/-- The guarded statement
`if (c != 0) x = ceil(t / (kMaxMemoryNodeConsumption * c)); else x = 0;`: the
value assigned to the unsigned `x`, or `none` if the division is executed with a
zero divisor. -/
def guardedRequiredNode (t : ℕ) (c : R) : Option ℕ :=
  if c ≠ 0 then
    (checkedDiv (roundDouble (t : R))
      (roundDouble (roundDouble (kMaxMemoryNodeConsumption R) * c))).map
        (fun q => doubleToUnsigned ⌈roundDouble q⌉)
  else some 0

/-- The body of `aggregate` once more, statement by statement, with each of its
eight guarded divisions replaced by the checked one.  The result is `none` as soon as a
division with a zero divisor is executed, and otherwise the object after the
call. -/
def aggregateChecked (sqrt : R → R) (self ss : SummaryStats R) : Option (SummaryStats R) :=
  let total : R :=
    (self.key_access_cnt : R) * self.key_access_mean + (ss.key_access_cnt : R) * ss.key_access_mean
  let key_access_cnt := addUnsigned self.key_access_cnt ss.key_access_cnt
  Option.bind
    (guardedQuotient total key_access_cnt) fun key_access_mean =>
  let key_access_std : R :=
    sqrt (self.key_access_std * self.key_access_std + ss.key_access_std * ss.key_access_std)
  let total_memory_count := addUnsigned self.total_memory_count ss.total_memory_count
  let total_memory_access := addUnsigned self.total_memory_access ss.total_memory_access
  let total_ebs_count := addUnsigned self.total_ebs_count ss.total_ebs_count
  let total_ebs_access := addUnsigned self.total_ebs_access ss.total_ebs_access
  let total_memory_consumption :=
    addULongLong self.total_memory_consumption ss.total_memory_consumption
  let total_ebs_consumption := addULongLong self.total_ebs_consumption ss.total_ebs_consumption
  let max_memory_consumption_percentage : R :=
    max self.max_memory_consumption_percentage ss.max_memory_consumption_percentage
  let max_ebs_consumption_percentage : R :=
    max self.max_ebs_consumption_percentage ss.max_ebs_consumption_percentage
  Option.bind
    (guardedQuotientNat total_memory_consumption total_memory_count) fun avg_memory_consumption_percentage =>
  Option.bind
    (guardedQuotientNat total_ebs_consumption total_ebs_count) fun avg_ebs_consumption_percentage =>
  let memory_node_capacity : R := ss.memory_node_capacity
  let ebs_node_capacity : R := ss.ebs_node_capacity
  Option.bind
    (guardedRequiredNode total_memory_consumption memory_node_capacity) fun required_memory_node =>
  Option.bind
    (guardedRequiredNode total_ebs_consumption ebs_node_capacity) fun required_ebs_node =>
  let min_occupancy_memory_public_ip : Address :=
    if ss.min_memory_occupancy < self.min_memory_occupancy then ss.min_occupancy_memory_public_ip
    else self.min_occupancy_memory_public_ip
  let min_occupancy_memory_private_ip : Address :=
    if ss.min_memory_occupancy < self.min_memory_occupancy then ss.min_occupancy_memory_private_ip
    else self.min_occupancy_memory_private_ip
  let max_memory_occupancy : R := max self.max_memory_occupancy ss.max_memory_occupancy
  let min_memory_occupancy : R := min self.min_memory_occupancy ss.min_memory_occupancy
  let sum_memory_occupancy : R := self.sum_memory_occupancy + ss.sum_memory_occupancy
  let cnt_memory_occupancy := addUnsigned self.cnt_memory_occupancy ss.cnt_memory_occupancy
  Option.bind
    (guardedQuotient sum_memory_occupancy cnt_memory_occupancy) fun avg_memory_occupancy =>
  let max_ebs_occupancy : R := max self.max_ebs_occupancy ss.max_ebs_occupancy
  let min_ebs_occupancy : R := min self.min_ebs_occupancy ss.min_ebs_occupancy
  let sum_ebs_occupancy : R := self.sum_ebs_occupancy + ss.sum_ebs_occupancy
  let cnt_ebs_occupancy := addUnsigned self.cnt_ebs_occupancy ss.cnt_ebs_occupancy
  Option.bind
    (guardedQuotient sum_ebs_occupancy cnt_ebs_occupancy) fun avg_ebs_occupancy =>
  let sum_latency : R := self.sum_latency + ss.sum_latency
  let cnt_latency := addUnsigned self.cnt_latency ss.cnt_latency
  Option.bind
    (guardedQuotient sum_latency cnt_latency) fun avg_latency =>
  let total_throughput : R := self.total_throughput + ss.total_throughput
  some
    { key_access_cnt := key_access_cnt
      key_access_mean := key_access_mean
      key_access_std := key_access_std
      total_memory_count := total_memory_count
      total_memory_access := total_memory_access
      total_ebs_count := total_ebs_count
      total_ebs_access := total_ebs_access
      total_memory_consumption := total_memory_consumption
      total_ebs_consumption := total_ebs_consumption
      max_memory_consumption_percentage := max_memory_consumption_percentage
      max_ebs_consumption_percentage := max_ebs_consumption_percentage
      avg_memory_consumption_percentage := avg_memory_consumption_percentage
      avg_ebs_consumption_percentage := avg_ebs_consumption_percentage
      memory_node_capacity := memory_node_capacity
      ebs_node_capacity := ebs_node_capacity
      required_memory_node := required_memory_node
      required_ebs_node := required_ebs_node
      max_memory_occupancy := max_memory_occupancy
      min_memory_occupancy := min_memory_occupancy
      avg_memory_occupancy := avg_memory_occupancy
      sum_memory_occupancy := sum_memory_occupancy
      cnt_memory_occupancy := cnt_memory_occupancy
      max_ebs_occupancy := max_ebs_occupancy
      min_ebs_occupancy := min_ebs_occupancy
      avg_ebs_occupancy := avg_ebs_occupancy
      sum_ebs_occupancy := sum_ebs_occupancy
      cnt_ebs_occupancy := cnt_ebs_occupancy
      min_occupancy_memory_public_ip := min_occupancy_memory_public_ip
      min_occupancy_memory_private_ip := min_occupancy_memory_private_ip
      sum_latency := sum_latency
      cnt_latency := cnt_latency
      avg_latency := avg_latency
      total_throughput := total_throughput }

/-! ### Concrete snapshots used to evaluate the model -/

/-- A cleared snapshot over `ℚ` whose two capacity fields are `0`. -/
def blank : SummaryStats ℚ :=
  { key_access_cnt := 0
    key_access_mean := 0
    key_access_std := 0
    total_memory_count := 0
    total_memory_access := 0
    total_ebs_count := 0
    total_ebs_access := 0
    total_memory_consumption := 0
    total_ebs_consumption := 0
    max_memory_consumption_percentage := 0
    max_ebs_consumption_percentage := 0
    avg_memory_consumption_percentage := 0
    avg_ebs_consumption_percentage := 0
    memory_node_capacity := 0
    ebs_node_capacity := 0
    required_memory_node := 0
    required_ebs_node := 0
    max_memory_occupancy := 0
    min_memory_occupancy := 1
    avg_memory_occupancy := 0
    sum_memory_occupancy := 0
    cnt_memory_occupancy := 0
    max_ebs_occupancy := 0
    min_ebs_occupancy := 1
    avg_ebs_occupancy := 0
    sum_ebs_occupancy := 0
    cnt_ebs_occupancy := 0
    min_occupancy_memory_public_ip := Address.empty
    min_occupancy_memory_private_ip := Address.empty
    sum_latency := 0
    cnt_latency := 0
    avg_latency := 0
    total_throughput := 0 }

/-- Scenario A, first node: ten key accesses with mean `5`. -/
def scenarioA_first : SummaryStats ℚ :=
  { blank with key_access_cnt := 10, key_access_mean := 5 }

/-- Scenario A, second node: no key access, mean `0`. -/
def scenarioA_second : SummaryStats ℚ :=
  { blank with key_access_cnt := 0, key_access_mean := 0 }

/-- An accumulator whose access count is the largest `unsigned` value. -/
def countAtMax : SummaryStats ℚ :=
  { blank with key_access_cnt := 4294967295, key_access_mean := 1 }

/-- A node reporting a single access with mean `1`. -/
def countOne : SummaryStats ℚ :=
  { blank with key_access_cnt := 1, key_access_mean := 1 }

/-- A node whose least-occupied memory thread is fully occupied. -/
def fullNode : SummaryStats ℚ :=
  { blank with
    max_memory_occupancy := 1
    min_memory_occupancy := 1
    min_occupancy_memory_public_ip := "54.0.0.1"
    min_occupancy_memory_private_ip := "10.0.0.1" }

/-- A node whose least-occupied memory thread is half occupied. -/
def halfNode : SummaryStats ℚ :=
  { blank with
    max_memory_occupancy := 3 / 4
    min_memory_occupancy := 1 / 2
    min_occupancy_memory_public_ip := "54.0.0.2"
    min_occupancy_memory_private_ip := "10.0.0.2" }

/-- A node whose least-occupied memory thread is one fifth occupied. -/
def lightNode : SummaryStats ℚ :=
  { blank with
    max_memory_occupancy := 2 / 5
    min_memory_occupancy := 1 / 5
    min_occupancy_memory_public_ip := "54.0.0.3"
    min_occupancy_memory_private_ip := "10.0.0.3" }

/-- A node holding 3 bytes on the EBS tier, with EBS node capacity 1. -/
def ebsNode : SummaryStats ℚ :=
  { blank with total_ebs_consumption := 3, ebs_node_capacity := 1 }

/-- A node holding `3 * 2^32` bytes in memory, with memory node capacity 5. -/
def hugeMemoryNode : SummaryStats ℚ :=
  { blank with total_memory_consumption := 12884901888, memory_node_capacity := 5 }

/-- A node holding 3 bytes in memory, with memory node capacity 5. -/
def tinyMemoryNode : SummaryStats ℚ :=
  { blank with total_memory_consumption := 3, memory_node_capacity := 5 }

/-- A node holding 6 bytes in memory, with memory node capacity 5. -/
def smallCapacityNode : SummaryStats ℚ :=
  { blank with total_memory_consumption := 6, memory_node_capacity := 5 }

/-- A node holding 6 bytes in memory, with memory node capacity 10. -/
def largeCapacityNode : SummaryStats ℚ :=
  { blank with total_memory_consumption := 6, memory_node_capacity := 10 }

/-- A node with every additive field set and occupancies inside `[0, 1]`. -/
def busyNode : SummaryStats ℚ :=
  { key_access_cnt := 7
    key_access_mean := 3
    key_access_std := 2
    total_memory_count := 4
    total_memory_access := 9
    total_ebs_count := 2
    total_ebs_access := 5
    total_memory_consumption := 1000
    total_ebs_consumption := 3000
    max_memory_consumption_percentage := 1 / 2
    max_ebs_consumption_percentage := 1 / 4
    avg_memory_consumption_percentage := 250
    avg_ebs_consumption_percentage := 1500
    memory_node_capacity := 500
    ebs_node_capacity := 2000
    required_memory_node := 4
    required_ebs_node := 3
    max_memory_occupancy := 9 / 10
    min_memory_occupancy := 1 / 10
    avg_memory_occupancy := 1 / 2
    sum_memory_occupancy := 2
    cnt_memory_occupancy := 4
    max_ebs_occupancy := 7 / 10
    min_ebs_occupancy := 3 / 10
    avg_ebs_occupancy := 1 / 2
    sum_ebs_occupancy := 1
    cnt_ebs_occupancy := 2
    min_occupancy_memory_public_ip := "54.0.0.9"
    min_occupancy_memory_private_ip := "10.0.0.9"
    sum_latency := 12
    cnt_latency := 3
    avg_latency := 4
    total_throughput := 80 }

/-- An accumulator whose memory key count is the largest `unsigned` value. -/
def memoryCountAtMax : SummaryStats ℚ :=
  { blank with total_memory_count := 4294967295, total_memory_consumption := 8 }

/-- A node reporting one memory key of 8 bytes. -/
def memoryCountOne : SummaryStats ℚ :=
  { blank with total_memory_count := 1, total_memory_consumption := 8 }

/-- A node reporting 3 memory keys (5 accesses, 700 bytes) and 2 EBS keys
(1 access, 900 bytes). -/
def storageNode : SummaryStats ℚ :=
  { blank with
    total_memory_count := 3
    total_memory_access := 5
    total_ebs_count := 2
    total_ebs_access := 1
    total_memory_consumption := 700
    total_ebs_consumption := 900 }

/-- A node at 80% peak memory consumption holding one key of 2 bytes. -/
def peakNode : SummaryStats ℚ :=
  { blank with
    total_memory_count := 1
    total_memory_consumption := 2
    max_memory_consumption_percentage := 4 / 5 }

/-- A node at 50% peak memory consumption holding one key of 1 byte. -/
def calmNode : SummaryStats ℚ :=
  { blank with
    total_memory_count := 1
    total_memory_consumption := 1
    max_memory_consumption_percentage := 1 / 2 }

/-- An accumulator that has seen the largest `unsigned` number of occupancy and
latency samples. -/
def samplesAtMax : SummaryStats ℚ :=
  { blank with
    sum_memory_occupancy := 1
    cnt_memory_occupancy := 4294967295
    sum_ebs_occupancy := 1
    cnt_ebs_occupancy := 4294967295
    sum_latency := 1
    cnt_latency := 4294967295 }

/-- A node reporting one occupancy sample per tier and one latency sample. -/
def sampleOne : SummaryStats ℚ :=
  { blank with
    max_memory_occupancy := 1 / 2
    min_memory_occupancy := 1 / 2
    sum_memory_occupancy := 1 / 2
    cnt_memory_occupancy := 1
    max_ebs_occupancy := 1 / 4
    min_ebs_occupancy := 1 / 4
    sum_ebs_occupancy := 1 / 4
    cnt_ebs_occupancy := 1
    sum_latency := 3
    cnt_latency := 1
    total_throughput := 10 }

/-- A cleared snapshot over the real numbers whose two capacity fields are `0`. -/
def blankReal : SummaryStats ℝ :=
  { key_access_cnt := 0
    key_access_mean := 0
    key_access_std := 0
    total_memory_count := 0
    total_memory_access := 0
    total_ebs_count := 0
    total_ebs_access := 0
    total_memory_consumption := 0
    total_ebs_consumption := 0
    max_memory_consumption_percentage := 0
    max_ebs_consumption_percentage := 0
    avg_memory_consumption_percentage := 0
    avg_ebs_consumption_percentage := 0
    memory_node_capacity := 0
    ebs_node_capacity := 0
    required_memory_node := 0
    required_ebs_node := 0
    max_memory_occupancy := 0
    min_memory_occupancy := 1
    avg_memory_occupancy := 0
    sum_memory_occupancy := 0
    cnt_memory_occupancy := 0
    max_ebs_occupancy := 0
    min_ebs_occupancy := 1
    avg_ebs_occupancy := 0
    sum_ebs_occupancy := 0
    cnt_ebs_occupancy := 0
    min_occupancy_memory_public_ip := Address.empty
    min_occupancy_memory_private_ip := Address.empty
    sum_latency := 0
    cnt_latency := 0
    avg_latency := 0
    total_throughput := 0 }

/-- A real-valued node: 4 accesses with mean 2 and standard deviation 1. -/
def realNodeA : SummaryStats ℝ :=
  { blankReal with
    key_access_cnt := 4
    key_access_mean := 2
    key_access_std := 1
    total_memory_consumption := 40
    memory_node_capacity := 10 }

/-- A real-valued node: 6 accesses with mean 7 and standard deviation 1. -/
def realNodeB : SummaryStats ℝ :=
  { blankReal with
    key_access_cnt := 6
    key_access_mean := 7
    key_access_std := 1
    total_memory_consumption := 60
    memory_node_capacity := 20 }

/-- A real-valued node: 1 access with mean 3 and standard deviation 2. -/
def realNodeC : SummaryStats ℝ :=
  { blankReal with
    key_access_cnt := 1
    key_access_mean := 3
    key_access_std := 2
    total_memory_consumption := 5
    memory_node_capacity := 30 }

/-- A node without key accesses that nevertheless carries the mean `9`. -/
def idleNode : SummaryStats ℚ :=
  { blank with key_access_cnt := 0, key_access_mean := 9 }

/-- A node with 3 accesses of mean 4 and standard deviation 3. -/
def stdThreeNode : SummaryStats ℚ :=
  { blank with key_access_cnt := 3, key_access_mean := 4, key_access_std := 3 }

/-- A node with 5 accesses of mean 2 and standard deviation 4. -/
def stdFourNode : SummaryStats ℚ :=
  { blank with key_access_cnt := 5, key_access_mean := 2, key_access_std := 4 }

/-- A node holding 9 bytes in memory, with memory node capacity 3. -/
def nineByteNode : SummaryStats ℚ :=
  { blank with total_memory_consumption := 9, memory_node_capacity := 3 }

/-! ### Basic facts about the machine arithmetic -/

theorem addUnsigned_of_lt {a b : ℕ} (h : a + b < 2 ^ 32) : addUnsigned a b = a + b :=
  Nat.mod_eq_of_lt h

theorem addULongLong_of_lt {a b : ℕ} (h : a + b < 2 ^ 64) : addULongLong a b = a + b :=
  Nat.mod_eq_of_lt h

theorem addUnsigned_zero_left {a : ℕ} (h : a < 2 ^ 32) : addUnsigned 0 a = a := by
  unfold addUnsigned
  rw [Nat.zero_add]
  exact Nat.mod_eq_of_lt h

theorem addULongLong_zero_left {a : ℕ} (h : a < 2 ^ 64) : addULongLong 0 a = a := by
  unfold addULongLong
  rw [Nat.zero_add]
  exact Nat.mod_eq_of_lt h

theorem doubleToUnsigned_lt (z : ℤ) : doubleToUnsigned z < 2 ^ 32 := by
  unfold doubleToUnsigned kUnsignedRange
  split
  · have h1 : (0 : ℤ) ≤ z % ((2 ^ 32 : ℕ) : ℤ) := Int.emod_nonneg _ (by norm_num)
    have h2 : z % ((2 ^ 32 : ℕ) : ℤ) < ((2 ^ 32 : ℕ) : ℤ) := Int.emod_lt_of_pos _ (by norm_num)
    omega
  · norm_num

theorem doubleToUnsigned_of_fits {z : ℤ} (h0 : 0 ≤ z) (h1 : z < 2 ^ 32) :
    (doubleToUnsigned z : ℤ) = z := by
  unfold doubleToUnsigned kUnsignedRange
  have hr : -(2 : ℤ) ^ 63 ≤ z ∧ z < (2 : ℤ) ^ 63 := by
    constructor
    · linarith [show (0 : ℤ) ≤ (2 : ℤ) ^ 63 by norm_num]
    · linarith [show (2 : ℤ) ^ 32 ≤ (2 : ℤ) ^ 63 by norm_num]
  have h2 : z % ((2 ^ 32 : ℕ) : ℤ) = z := Int.emod_eq_of_lt h0 (by exact_mod_cast h1)
  rw [if_pos hr, h2]
  exact Int.toNat_of_nonneg h0

/-- Where the language defines the conversion, the modelled conversion returns
the defined value. -/
theorem doubleToUnsigned_of_defined {z : ℤ} {n : ℕ} (h : doubleToUnsignedDefined z = some n) :
    doubleToUnsigned z = n := by
  unfold doubleToUnsignedDefined kUnsignedRange at h
  split at h
  · rename_i hz
    have e := doubleToUnsigned_of_fits hz.1 (by exact_mod_cast hz.2)
    have hn : z.toNat = n := Option.some.inj h
    have : (z.toNat : ℤ) = z := Int.toNat_of_nonneg hz.1
    omega
  · exact absurd h (by simp)

/-! ### Rounding to the nearest double -/

theorem floor_le_roundHalfEven (q : R) : ⌊q⌋ ≤ roundHalfEven q := by
  unfold roundHalfEven
  split_ifs <;> omega

theorem roundHalfEven_le_floor_succ (q : R) : roundHalfEven q ≤ ⌊q⌋ + 1 := by
  unfold roundHalfEven
  split_ifs <;> omega

theorem roundHalfEven_intCast (n : ℤ) : roundHalfEven (n : R) = n := by
  unfold roundHalfEven
  rw [Int.floor_intCast, sub_self, if_pos (by norm_num)]

theorem le_roundHalfEven {m : ℤ} {q : R} (h : (m : R) ≤ q) : m ≤ roundHalfEven q :=
  le_trans (Int.le_floor.mpr h) (floor_le_roundHalfEven q)

theorem roundHalfEven_le {m : ℤ} {q : R} (h : q ≤ (m : R)) : roundHalfEven q ≤ m := by
  rcases eq_or_lt_of_le h with heq | hlt
  · rw [heq, roundHalfEven_intCast]
  · have : ⌊q⌋ < m := Int.floor_lt.mpr hlt
    have := roundHalfEven_le_floor_succ q
    omega

theorem roundHalfEven_mono {q₁ q₂ : R} (h : q₁ ≤ q₂) : roundHalfEven q₁ ≤ roundHalfEven q₂ := by
  have hfl : ⌊q₁⌋ ≤ ⌊q₂⌋ := Int.floor_mono h
  rcases lt_or_eq_of_le hfl with hlt | heq
  · have h1 := roundHalfEven_le_floor_succ q₁
    have h2 := floor_le_roundHalfEven q₂
    omega
  · have hsub : q₁ - (⌊q₁⌋ : R) ≤ q₂ - (⌊q₂⌋ : R) := by
      rw [heq]; linarith
    unfold roundHalfEven
    rw [heq] at hsub ⊢
    split_ifs <;> first | omega | (exfalso; linarith)

theorem roundHalfEven_eq_of_near {q : R} {n : ℤ} (h : |q - (n : R)| < 1 / 2) :
    roundHalfEven q = n := by
  rw [abs_lt] at h
  obtain ⟨hlo, hhi⟩ := h
  by_cases hq : (n : R) ≤ q
  · have hfl : ⌊q⌋ = n := Int.floor_eq_iff.mpr ⟨hq, by linarith⟩
    unfold roundHalfEven
    rw [hfl, if_pos (by linarith)]
  · have hq' : q < (n : R) := lt_of_not_le hq
    have hfl : ⌊q⌋ = n - 1 :=
      Int.floor_eq_iff.mpr ⟨by push_cast; linarith, by push_cast; linarith⟩
    unfold roundHalfEven
    rw [hfl]
    have h1 : ¬ (q - ((n - 1 : ℤ) : R) < 1 / 2) := by push_cast; linarith
    have h2 : 1 / 2 < q - ((n - 1 : ℤ) : R) := by push_cast; linarith
    rw [if_neg h1, if_pos h2]
    omega

theorem roundHalfEven_eq_of_tie_even {q : R} {n : ℤ} (h : q = (n : R) + 1 / 2)
    (heven : n % 2 = 0) : roundHalfEven q = n := by
  have hfl : ⌊q⌋ = n := Int.floor_eq_iff.mpr ⟨by rw [h]; linarith, by rw [h]; linarith⟩
  unfold roundHalfEven
  rw [hfl]
  have h1 : ¬ (q - (n : R) < 1 / 2) := by rw [h]; simp
  have h2 : ¬ (1 / 2 < q - (n : R)) := by rw [h]; simp
  rw [if_neg h1, if_neg h2, if_pos heven]

theorem roundDouble_zero : roundDouble (0 : R) = 0 := if_pos rfl

omit [FloorRing R] in
theorem two_zpow_pos (e : ℤ) : (0 : R) < (2 : R) ^ e := zpow_pos (by norm_num) e

omit [FloorRing R] in
theorem two_zpow_split (e : ℤ) (k : ℕ) :
    (2 : R) ^ (e - 52 + (k : ℤ)) = (2 : R) ^ k * (2 : R) ^ (e - 52) := by
  rw [zpow_add₀ (by norm_num : (2 : R) ≠ 0), zpow_natCast, mul_comm]

/-- For positive `x` the significand `x / 2^(e-52)` lies in `[2^52, 2^53)`. -/
theorem significand_bounds {x : R} (hx : 0 < x) :
    (2 : R) ^ (52 : ℕ) ≤ x / (2 : R) ^ (Int.log 2 x - 52) ∧
    x / (2 : R) ^ (Int.log 2 x - 52) < (2 : R) ^ (53 : ℕ) := by
  have h1 : ((2 : ℕ) : R) ^ Int.log 2 x ≤ x := Int.zpow_log_le_self (by norm_num) hx
  have h2 : x < ((2 : ℕ) : R) ^ (Int.log 2 x + 1) := Int.lt_zpow_succ_log_self (by norm_num) x
  rw [Nat.cast_ofNat] at h1 h2
  have hu : (0 : R) < (2 : R) ^ (Int.log 2 x - 52) := two_zpow_pos _
  have e1 : (2 : R) ^ Int.log 2 x = (2 : R) ^ (52 : ℕ) * (2 : R) ^ (Int.log 2 x - 52) := by
    rw [← two_zpow_split]; congr 1; push_cast; ring
  have e2 : (2 : R) ^ (Int.log 2 x + 1) = (2 : R) ^ (53 : ℕ) * (2 : R) ^ (Int.log 2 x - 52) := by
    rw [← two_zpow_split]; congr 1; push_cast; ring
  constructor
  · rw [le_div_iff₀ hu, ← e1]; exact h1
  · rw [div_lt_iff₀ hu, ← e2]; exact h2

theorem roundDouble_of_pos {x : R} (hx : 0 < x) :
    roundDouble x =
      (roundHalfEven (x / (2 : R) ^ (Int.log 2 x - 52)) : R) * (2 : R) ^ (Int.log 2 x - 52) := by
  unfold roundDouble
  rw [if_neg (ne_of_gt hx), abs_of_pos hx]

/-- A positive number and its nearest double lie in the same closed binade. -/
theorem roundDouble_bounds {x : R} (hx : 0 < x) :
    (2 : R) ^ Int.log 2 x ≤ roundDouble x ∧ roundDouble x ≤ (2 : R) ^ (Int.log 2 x + 1) := by
  obtain ⟨b1, b2⟩ := significand_bounds hx
  have hu : (0 : R) < (2 : R) ^ (Int.log 2 x - 52) := two_zpow_pos _
  have k52 : (((2 : ℤ) ^ 52 : ℤ) : R) = (2 : R) ^ (52 : ℕ) := by norm_num
  have k53 : (((2 : ℤ) ^ 53 : ℤ) : R) = (2 : R) ^ (53 : ℕ) := by norm_num
  have r1 : ((2 : ℤ) ^ 52 : ℤ) ≤ roundHalfEven (x / (2 : R) ^ (Int.log 2 x - 52)) :=
    le_roundHalfEven (by rw [k52]; exact b1)
  have r2 : roundHalfEven (x / (2 : R) ^ (Int.log 2 x - 52)) ≤ ((2 : ℤ) ^ 53 : ℤ) :=
    roundHalfEven_le (by rw [k53]; exact b2.le)
  have c1 : (2 : R) ^ (52 : ℕ) ≤ (roundHalfEven (x / (2 : R) ^ (Int.log 2 x - 52)) : R) := by
    rw [← k52]; exact Int.cast_le.mpr r1
  have c2 : (roundHalfEven (x / (2 : R) ^ (Int.log 2 x - 52)) : R) ≤ (2 : R) ^ (53 : ℕ) := by
    rw [← k53]; exact Int.cast_le.mpr r2
  have e1 : (2 : R) ^ Int.log 2 x = (2 : R) ^ (52 : ℕ) * (2 : R) ^ (Int.log 2 x - 52) := by
    rw [← two_zpow_split]; congr 1; push_cast; ring
  have e2 : (2 : R) ^ (Int.log 2 x + 1) = (2 : R) ^ (53 : ℕ) * (2 : R) ^ (Int.log 2 x - 52) := by
    rw [← two_zpow_split]; congr 1; push_cast; ring
  rw [roundDouble_of_pos hx, e1, e2]
  exact ⟨mul_le_mul_of_nonneg_right c1 hu.le, mul_le_mul_of_nonneg_right c2 hu.le⟩

theorem roundDouble_pos {x : R} (hx : 0 < x) : 0 < roundDouble x :=
  lt_of_lt_of_le (two_zpow_pos _) (roundDouble_bounds hx).1

theorem roundDouble_nonneg {x : R} (hx : 0 ≤ x) : 0 ≤ roundDouble x := by
  rcases eq_or_lt_of_le hx with h0 | hpos
  · rw [← h0, roundDouble_zero]
  · exact (roundDouble_pos hpos).le

theorem roundDouble_nonpos {x : R} (hx : x ≤ 0) : roundDouble x ≤ 0 := by
  rcases eq_or_lt_of_le hx with h0 | hneg
  · rw [h0, roundDouble_zero]
  · unfold roundDouble
    rw [if_neg (ne_of_lt hneg)]
    have hu : (0 : R) < (2 : R) ^ (Int.log 2 |x| - 52) := two_zpow_pos _
    have hq : x / (2 : R) ^ (Int.log 2 |x| - 52) ≤ ((0 : ℤ) : R) := by
      rw [Int.cast_zero]
      exact div_nonpos_of_nonpos_of_nonneg hx hu.le
    have hr : roundHalfEven (x / (2 : R) ^ (Int.log 2 |x| - 52)) ≤ 0 := roundHalfEven_le hq
    exact mul_nonpos_of_nonpos_of_nonneg (by exact_mod_cast hr) hu.le

/-- Rounding never turns a nonzero number into zero (the exponent is unbounded). -/
theorem roundDouble_ne_zero {x : R} (hx : x ≠ 0) : roundDouble x ≠ 0 := by
  rcases lt_or_gt_of_ne hx with hneg | hpos
  · unfold roundDouble
    rw [if_neg hx]
    have hu : (0 : R) < (2 : R) ^ (Int.log 2 |x| - 52) := two_zpow_pos _
    have hax : 0 < |x| := abs_pos.mpr hx
    obtain ⟨b1, -⟩ := significand_bounds hax
    have hq : x / (2 : R) ^ (Int.log 2 |x| - 52) ≤ ((-1 : ℤ) : R) := by
      have : x / (2 : R) ^ (Int.log 2 |x| - 52) = -(|x| / (2 : R) ^ (Int.log 2 |x| - 52)) := by
        rw [abs_of_neg hneg, neg_div, neg_neg]
      rw [this]
      have h1 : (1 : R) ≤ (2 : R) ^ (52 : ℕ) := one_le_pow₀ (by norm_num)
      push_cast
      linarith
    have hr : roundHalfEven (x / (2 : R) ^ (Int.log 2 |x| - 52)) ≤ -1 := roundHalfEven_le hq
    have hc : (roundHalfEven (x / (2 : R) ^ (Int.log 2 |x| - 52)) : R) < 0 := by
      have : (roundHalfEven (x / (2 : R) ^ (Int.log 2 |x| - 52)) : R) ≤ ((-1 : ℤ) : R) :=
        Int.cast_le.mpr hr
      push_cast at this
      linarith
    exact ne_of_lt (mul_neg_of_neg_of_pos hc hu)
  · exact ne_of_gt (roundDouble_pos hpos)

/-- Rounding to the nearest double is monotone on the nonnegative numbers. -/
theorem roundDouble_mono_nonneg {x y : R} (hx : 0 ≤ x) (hxy : x ≤ y) :
    roundDouble x ≤ roundDouble y := by
  rcases eq_or_lt_of_le hx with h0 | hpos
  · rw [← h0, roundDouble_zero]
    exact roundDouble_nonneg (le_trans hx hxy)
  · have hy : 0 < y := lt_of_lt_of_le hpos hxy
    have hlog : Int.log 2 x ≤ Int.log 2 y := Int.log_mono_right hpos hxy
    rcases eq_or_lt_of_le hlog with heq | hlt
    · rw [roundDouble_of_pos hpos, roundDouble_of_pos hy, heq]
      have hu : (0 : R) < (2 : R) ^ (Int.log 2 y - 52) := two_zpow_pos _
      have hq : x / (2 : R) ^ (Int.log 2 y - 52) ≤ y / (2 : R) ^ (Int.log 2 y - 52) :=
        div_le_div_of_nonneg_right hxy hu.le
      exact mul_le_mul_of_nonneg_right (Int.cast_le.mpr (roundHalfEven_mono hq)) hu.le
    · have h1 := (roundDouble_bounds hpos).2
      have h2 := (roundDouble_bounds hy).1
      have h3 : (2 : R) ^ (Int.log 2 x + 1) ≤ (2 : R) ^ Int.log 2 y :=
        zpow_le_zpow_right₀ (by norm_num) (by omega)
      exact le_trans h1 (le_trans h3 h2)

theorem int_log_two_eq {x : R} {e : ℤ} (h1 : (2 : R) ^ e ≤ x) (h2 : x < (2 : R) ^ (e + 1)) :
    Int.log 2 x = e := by
  have hx : 0 < x := lt_of_lt_of_le (two_zpow_pos e) h1
  have a : e ≤ Int.log 2 x :=
    (Int.zpow_le_iff_le_log (by norm_num) hx).mp (by rw [Nat.cast_ofNat]; exact h1)
  have b : Int.log 2 x < e + 1 :=
    (Int.lt_zpow_iff_log_lt (by norm_num) hx).mp (by rw [Nat.cast_ofNat]; exact h2)
  omega

/-- Evaluation of `roundDouble` at a number of binade `e` whose significand is
within one half of the integer `n`. -/
theorem roundDouble_eq_of_near {x : R} {e n : ℤ} (h1 : (2 : R) ^ e ≤ x)
    (h2 : x < (2 : R) ^ (e + 1)) (hn : |x / (2 : R) ^ (e - 52) - (n : R)| < 1 / 2) :
    roundDouble x = (n : R) * (2 : R) ^ (e - 52) := by
  have hx : 0 < x := lt_of_lt_of_le (two_zpow_pos e) h1
  rw [roundDouble_of_pos hx, int_log_two_eq h1 h2, roundHalfEven_eq_of_near hn]

/-- Evaluation of `roundDouble` at a number of binade `e` whose significand is
half way between the even integer `n` and `n + 1`. -/
theorem roundDouble_eq_of_tie_even {x : R} {e n : ℤ} (h1 : (2 : R) ^ e ≤ x)
    (h2 : x < (2 : R) ^ (e + 1)) (hn : x / (2 : R) ^ (e - 52) = (n : R) + 1 / 2)
    (heven : n % 2 = 0) :
    roundDouble x = (n : R) * (2 : R) ^ (e - 52) := by
  have hx : 0 < x := lt_of_lt_of_le (two_zpow_pos e) h1
  rw [roundDouble_of_pos hx, int_log_two_eq h1 h2, roundHalfEven_eq_of_tie_even hn heven]

/-- The `double` constant `kMaxMemoryNodeConsumption` is `5404319552844595 / 2^53`,
slightly below `0.6`. -/
theorem roundDouble_kMaxMemoryNodeConsumption :
    roundDouble (kMaxMemoryNodeConsumption ℚ) = 5404319552844595 / 2 ^ 53 := by
  unfold kMaxMemoryNodeConsumption
  rw [roundDouble_eq_of_near (e := -1) (n := 5404319552844595) (by norm_num) (by norm_num)
    (by norm_num [abs_lt])]
  norm_num

/-- Evaluation of the quotient in three rounding steps. -/
theorem requiredNodeQuotient_eval {t : ℕ} {c p v q : ℚ}
    (hp : roundDouble (5404319552844595 / 2 ^ 53 * c) = p) (hv : roundDouble (t : ℚ) = v)
    (hq : roundDouble (v / p) = q) : requiredNodeQuotient t c = q := by
  unfold requiredNodeQuotient
  rw [roundDouble_kMaxMemoryNodeConsumption, hp, hv, hq]

theorem addUnsigned_lt (a b : ℕ) : addUnsigned a b < kUnsignedRange :=
  Nat.mod_lt _ (by norm_num [kUnsignedRange])

theorem addULongLong_lt (a b : ℕ) : addULongLong a b < kULongLongRange :=
  Nat.mod_lt _ (by norm_num [kULongLongRange])

/-- Every integer field written by `aggregate` is a value of its unsigned type,
whatever the inputs. -/
theorem aggregate_inRange (sqrt : R → R) (acc ss : SummaryStats R) :
    (aggregate sqrt acc ss).InRange := by
  refine ⟨addUnsigned_lt _ _, addUnsigned_lt _ _, addUnsigned_lt _ _, addUnsigned_lt _ _,
    addUnsigned_lt _ _, addULongLong_lt _ _, addULongLong_lt _ _, ?_, ?_,
    addUnsigned_lt _ _, addUnsigned_lt _ _, addUnsigned_lt _ _⟩
  · show (if ss.memory_node_capacity ≠ 0 then doubleToUnsigned _ else 0) < kUnsignedRange
    split
    · exact doubleToUnsigned_lt _
    · norm_num [kUnsignedRange]
  · show (if ss.ebs_node_capacity ≠ 0 then doubleToUnsigned _ else 0) < kUnsignedRange
    split
    · exact doubleToUnsigned_lt _
    · norm_num [kUnsignedRange]

/-! ### Key access count and mean -/

/-- C1 (as amended): when the two access counts add up to less than `2^32`, the
aggregated `key_access_cnt` is their sum, the aggregated `key_access_mean` is the
weighted mean `(cnt_a*mean_a + cnt_b*mean_b)/(cnt_a + cnt_b)` if that sum is
positive, and `0` if both counts are `0`; in particular `(cnt=10, mean=5)`
aggregated with `(cnt=0, mean=0)` gives `(cnt=10, mean=5)`. -/
theorem aggregate_key_access_of_no_wrap (sqrt : R → R) (acc ss : SummaryStats R)
    (h : acc.key_access_cnt + ss.key_access_cnt < 2 ^ 32) :
    (aggregate sqrt acc ss).key_access_cnt = acc.key_access_cnt + ss.key_access_cnt ∧
    (0 < acc.key_access_cnt + ss.key_access_cnt →
      (aggregate sqrt acc ss).key_access_mean =
        ((acc.key_access_cnt : R) * acc.key_access_mean +
            (ss.key_access_cnt : R) * ss.key_access_mean) /
          ((acc.key_access_cnt : R) + (ss.key_access_cnt : R))) ∧
    (acc.key_access_cnt = 0 ∧ ss.key_access_cnt = 0 →
      (aggregate sqrt acc ss).key_access_mean = 0) ∧
    (acc.key_access_cnt = 10 ∧ acc.key_access_mean = 5 ∧
        ss.key_access_cnt = 0 ∧ ss.key_access_mean = 0 →
      (aggregate sqrt acc ss).key_access_cnt = 10 ∧
      (aggregate sqrt acc ss).key_access_mean = 5) := by
  have hsum : addUnsigned acc.key_access_cnt ss.key_access_cnt =
      acc.key_access_cnt + ss.key_access_cnt := addUnsigned_of_lt h
  have hmean : 0 < acc.key_access_cnt + ss.key_access_cnt →
      (aggregate sqrt acc ss).key_access_mean =
        ((acc.key_access_cnt : R) * acc.key_access_mean +
            (ss.key_access_cnt : R) * ss.key_access_mean) /
          ((acc.key_access_cnt : R) + (ss.key_access_cnt : R)) := by
    intro hpos
    show (if addUnsigned acc.key_access_cnt ss.key_access_cnt ≠ 0 then _ else _) = _
    rw [hsum, if_pos (Nat.pos_iff_ne_zero.mp hpos)]
    push_cast
    rfl
  refine ⟨hsum, hmean, ?_, ?_⟩
  · rintro ⟨ha, hb⟩
    show (if addUnsigned acc.key_access_cnt ss.key_access_cnt ≠ 0 then _ else _) = _
    rw [hsum, ha, hb]
    simp
  · rintro ⟨ha, hma, hb, hmb⟩
    constructor
    · show addUnsigned acc.key_access_cnt ss.key_access_cnt = 10
      rw [hsum, ha, hb]
    · rw [hmean (by rw [ha, hb]; norm_num), ha, hb, hma, hmb]
      norm_num

/-- Scenario A of C1: `(cnt=10, mean=5)` aggregated with `(cnt=0, mean=0)` gives
`(cnt=10, mean=5)`. -/
theorem aggregate_key_access_scenarioA :
    scenarioA_first.key_access_cnt + scenarioA_second.key_access_cnt < 2 ^ 32 ∧
    (aggregate Rat.sqrt scenarioA_first scenarioA_second).key_access_cnt = 10 ∧
    (aggregate Rat.sqrt scenarioA_first scenarioA_second).key_access_mean = 5 := by
  have hlt : scenarioA_first.key_access_cnt + scenarioA_second.key_access_cnt < 2 ^ 32 := by
    norm_num [scenarioA_first, scenarioA_second]
  obtain ⟨hcnt, hmean, -, -⟩ :=
    aggregate_key_access_of_no_wrap Rat.sqrt scenarioA_first scenarioA_second hlt
  refine ⟨hlt, ?_, ?_⟩
  · rw [hcnt]; rfl
  · rw [hmean (by norm_num [scenarioA_first, scenarioA_second])]
    norm_num [scenarioA_first, scenarioA_second, blank]

/-- C1 fails as stated: with access counts `2^32 - 1` and `1` (both values of the
unsigned field) the aggregated count wraps to `0`, not `2^32`, and the mean is
`0` although the weighted mean of the inputs is `1`. -/
theorem aggregate_key_access_wraps :
    countAtMax.InRange ∧ countOne.InRange ∧
    0 < countAtMax.key_access_cnt + countOne.key_access_cnt ∧
    (aggregate Rat.sqrt countAtMax countOne).key_access_cnt = 0 ∧
    (aggregate Rat.sqrt countAtMax countOne).key_access_cnt ≠
      countAtMax.key_access_cnt + countOne.key_access_cnt ∧
    (aggregate Rat.sqrt countAtMax countOne).key_access_mean = 0 ∧
    (aggregate Rat.sqrt countAtMax countOne).key_access_mean ≠
      ((countAtMax.key_access_cnt : ℚ) * countAtMax.key_access_mean +
          (countOne.key_access_cnt : ℚ) * countOne.key_access_mean) /
        ((countAtMax.key_access_cnt : ℚ) + (countOne.key_access_cnt : ℚ)) := by
  refine ⟨?_, ?_, ?_, ?_, ?_, ?_, ?_⟩ <;>
    norm_num [aggregate, InRange, countAtMax, countOne, blank, addUnsigned, kUnsignedRange,
      kULongLongRange]

/-! ### The minimum memory occupancy and the address attached to it -/

theorem aggregate_min_of_lt (sqrt : R → R) (acc ss : SummaryStats R)
    (h : ss.min_memory_occupancy < acc.min_memory_occupancy) :
    (aggregate sqrt acc ss).min_memory_occupancy = ss.min_memory_occupancy ∧
    (aggregate sqrt acc ss).min_occupancy_memory_public_ip = ss.min_occupancy_memory_public_ip ∧
    (aggregate sqrt acc ss).min_occupancy_memory_private_ip =
      ss.min_occupancy_memory_private_ip := by
  refine ⟨?_, ?_, ?_⟩
  · show min acc.min_memory_occupancy ss.min_memory_occupancy = _
    exact min_eq_right h.le
  · show (if ss.min_memory_occupancy < acc.min_memory_occupancy then _ else _) = _
    rw [if_pos h]
  · show (if ss.min_memory_occupancy < acc.min_memory_occupancy then _ else _) = _
    rw [if_pos h]

theorem aggregate_min_of_not_lt (sqrt : R → R) (acc ss : SummaryStats R)
    (h : ¬ ss.min_memory_occupancy < acc.min_memory_occupancy) :
    (aggregate sqrt acc ss).min_memory_occupancy = acc.min_memory_occupancy ∧
    (aggregate sqrt acc ss).min_occupancy_memory_public_ip = acc.min_occupancy_memory_public_ip ∧
    (aggregate sqrt acc ss).min_occupancy_memory_private_ip =
      acc.min_occupancy_memory_private_ip := by
  refine ⟨?_, ?_, ?_⟩
  · show min acc.min_memory_occupancy ss.min_memory_occupancy = _
    exact min_eq_left (not_lt.mp h)
  · show (if ss.min_memory_occupancy < acc.min_memory_occupancy then _ else _) = _
    rw [if_neg h]
  · show (if ss.min_memory_occupancy < acc.min_memory_occupancy then _ else _) = _
    rw [if_neg h]

/-- Folding a list of snapshots into an accumulator either leaves the minimum and
its address pair as the accumulator had them (no snapshot was strictly smaller),
or ends with the minimum and address pair of one of the snapshots, whose minimum
is strictly below the accumulator's. -/
theorem aggregateAll_min_cases (sqrt : R → R) (nodes : List (SummaryStats R)) :
    ∀ acc : SummaryStats R,
      ((aggregateAll sqrt acc nodes).min_memory_occupancy = acc.min_memory_occupancy ∧
        (aggregateAll sqrt acc nodes).min_occupancy_memory_public_ip =
          acc.min_occupancy_memory_public_ip ∧
        (aggregateAll sqrt acc nodes).min_occupancy_memory_private_ip =
          acc.min_occupancy_memory_private_ip ∧
        ∀ s ∈ nodes, acc.min_memory_occupancy ≤ s.min_memory_occupancy) ∨
      (∃ s ∈ nodes,
        s.min_occupancy_memory_public_ip =
          (aggregateAll sqrt acc nodes).min_occupancy_memory_public_ip ∧
        s.min_occupancy_memory_private_ip =
          (aggregateAll sqrt acc nodes).min_occupancy_memory_private_ip ∧
        s.min_memory_occupancy = (aggregateAll sqrt acc nodes).min_memory_occupancy ∧
        (aggregateAll sqrt acc nodes).min_memory_occupancy < acc.min_memory_occupancy) := by
  induction nodes with
  | nil =>
    intro acc
    left
    exact ⟨rfl, rfl, rfl, fun s hs => absurd hs (List.not_mem_nil s)⟩
  | cons x xs ih =>
    intro acc
    have hstep : aggregateAll sqrt acc (x :: xs) = aggregateAll sqrt (aggregate sqrt acc x) xs :=
      rfl
    rw [hstep]
    by_cases hlt : x.min_memory_occupancy < acc.min_memory_occupancy
    · obtain ⟨hmin, hpub, hpriv⟩ := aggregate_min_of_lt sqrt acc x hlt
      rcases ih (aggregate sqrt acc x) with ⟨kmin, kpub, kpriv, -⟩ | ⟨s, hs, spub, spriv, smin, slt⟩
      · right
        refine ⟨x, List.mem_cons_self x xs, ?_, ?_, ?_, ?_⟩
        · rw [kpub, hpub]
        · rw [kpriv, hpriv]
        · rw [kmin, hmin]
        · rw [kmin, hmin]; exact hlt
      · right
        refine ⟨s, List.mem_cons_of_mem x hs, spub, spriv, smin, ?_⟩
        exact lt_trans slt (by rw [hmin]; exact hlt)
    · obtain ⟨hmin, hpub, hpriv⟩ := aggregate_min_of_not_lt sqrt acc x hlt
      rcases ih (aggregate sqrt acc x) with ⟨kmin, kpub, kpriv, kall⟩ | ⟨s, hs, spub, spriv, smin, slt⟩
      · left
        refine ⟨by rw [kmin, hmin], by rw [kpub, hpub], by rw [kpriv, hpriv], ?_⟩
        intro s hs
        rcases List.mem_cons.mp hs with rfl | hs
        · exact not_lt.mp hlt
        · rw [← hmin]; exact kall s hs
      · right
        refine ⟨s, List.mem_cons_of_mem x hs, spub, spriv, smin, ?_⟩
        rw [← hmin]; exact slt

/-- C2 (as amended): fold any sequence of per-node snapshots into a freshly cleared
accumulator.  If some snapshot reports a minimum memory occupancy strictly below
`1`, the resulting address pair is the pair of a snapshot of the sequence whose
minimum equals the resulting `min_memory_occupancy`.  If no snapshot reports a
minimum below `1`, the resulting minimum is the sentinel `1` and both address
fields are still the empty `Address` written by `clear()`. -/
theorem aggregateAll_min_address (sqrt : R → R) (raw : SummaryStats R)
    (nodes : List (SummaryStats R)) :
    ((∃ s ∈ nodes, s.min_memory_occupancy < 1) →
      ∃ s ∈ nodes,
        s.min_occupancy_memory_public_ip =
          (aggregateAll sqrt raw.clear nodes).min_occupancy_memory_public_ip ∧
        s.min_occupancy_memory_private_ip =
          (aggregateAll sqrt raw.clear nodes).min_occupancy_memory_private_ip ∧
        s.min_memory_occupancy = (aggregateAll sqrt raw.clear nodes).min_memory_occupancy) ∧
    ((∀ s ∈ nodes, 1 ≤ s.min_memory_occupancy) →
      (aggregateAll sqrt raw.clear nodes).min_memory_occupancy = 1 ∧
      (aggregateAll sqrt raw.clear nodes).min_occupancy_memory_public_ip = Address.empty ∧
      (aggregateAll sqrt raw.clear nodes).min_occupancy_memory_private_ip = Address.empty) := by
  have hclear : (raw.clear).min_memory_occupancy = 1 := rfl
  constructor
  · rintro ⟨t, ht, htlt⟩
    rcases aggregateAll_min_cases sqrt nodes raw.clear with
      ⟨-, -, -, kall⟩ | ⟨s, hs, spub, spriv, smin, -⟩
    · have := kall t ht
      rw [hclear] at this
      exact absurd htlt (not_lt.mpr this)
    · exact ⟨s, hs, spub, spriv, smin⟩
  · intro hall
    rcases aggregateAll_min_cases sqrt nodes raw.clear with
      ⟨kmin, kpub, kpriv, -⟩ | ⟨s, hs, -, -, smin, slt⟩
    · exact ⟨kmin.trans hclear, kpub, kpriv⟩
    · have := hall s hs
      rw [hclear, ← smin] at slt
      exact absurd slt (not_lt.mpr this)

/-- C2 at a concrete sequence: folding a half-occupied node and then a lighter one
into a cleared accumulator ends with the lighter node's address pair and
minimum. -/
theorem aggregateAll_min_address_example :
    (∃ s ∈ [halfNode, lightNode], s.min_memory_occupancy < 1) ∧
    ∃ s ∈ [halfNode, lightNode],
      s.min_occupancy_memory_public_ip =
        (aggregateAll Rat.sqrt busyNode.clear
          [halfNode, lightNode]).min_occupancy_memory_public_ip ∧
      s.min_occupancy_memory_private_ip =
        (aggregateAll Rat.sqrt busyNode.clear
          [halfNode, lightNode]).min_occupancy_memory_private_ip ∧
      s.min_memory_occupancy =
        (aggregateAll Rat.sqrt busyNode.clear [halfNode, lightNode]).min_memory_occupancy :=
  have h : ∃ s ∈ [halfNode, lightNode], s.min_memory_occupancy < 1 :=
    ⟨halfNode, List.mem_cons_self _ _, by norm_num [halfNode]⟩
  ⟨h, (aggregateAll_min_address Rat.sqrt busyNode [halfNode, lightNode]).1 h⟩

/-- C2 fails as stated: a single snapshot whose minimum memory occupancy is `1`
(a value of `[0,1]`) folded into a cleared accumulator leaves both address fields
empty, so the resulting pair is not the pair of any snapshot of the sequence. -/
theorem aggregateAll_min_address_sentinel :
    [fullNode] ≠ [] ∧
    (∀ s ∈ [fullNode], 0 ≤ s.min_memory_occupancy ∧ s.min_memory_occupancy ≤ 1) ∧
    (aggregateAll Rat.sqrt busyNode.clear [fullNode]).min_memory_occupancy = 1 ∧
    (aggregateAll Rat.sqrt busyNode.clear [fullNode]).min_occupancy_memory_public_ip = "" ∧
    (aggregateAll Rat.sqrt busyNode.clear [fullNode]).min_occupancy_memory_private_ip = "" ∧
    ¬ ∃ s ∈ [fullNode],
      s.min_occupancy_memory_public_ip =
        (aggregateAll Rat.sqrt busyNode.clear [fullNode]).min_occupancy_memory_public_ip ∧
      s.min_occupancy_memory_private_ip =
        (aggregateAll Rat.sqrt busyNode.clear [fullNode]).min_occupancy_memory_private_ip ∧
      s.min_memory_occupancy =
        (aggregateAll Rat.sqrt busyNode.clear [fullNode]).min_memory_occupancy := by
  have hpub : (aggregateAll Rat.sqrt busyNode.clear [fullNode]).min_occupancy_memory_public_ip
      = "" := by
    norm_num [aggregateAll, aggregate, clear, fullNode, blank, Address.empty]
  refine ⟨by simp, ?_, ?_, hpub, ?_, ?_⟩
  · intro s hs
    rw [List.mem_singleton.mp hs]
    norm_num [fullNode]
  · norm_num [aggregateAll, aggregate, clear, fullNode, blank]
  · norm_num [aggregateAll, aggregate, clear, fullNode, blank, Address.empty]
  · rintro ⟨s, hs, spub, -, -⟩
    rw [List.mem_singleton.mp hs, hpub] at spub
    exact absurd spub (by decide)

/-- C3: one `aggregate` step replaces the triple (minimum memory occupancy, public
address, private address) as a unit.  If the operand's minimum is strictly
smaller than the accumulator's, the triple becomes the operand's; otherwise it
stays the accumulator's.  Whenever one of the two addresses differs from the
accumulator's previous one, the minimum has become the operand's value, which is
strictly smaller than the previous minimum.  Conversely, a result triple equal
to the operand's arises only from a strictly smaller operand minimum or from an
operand triple that already equals the accumulator's. -/
theorem aggregate_min_triple (sqrt : R → R) (acc ss : SummaryStats R) :
    (ss.min_memory_occupancy < acc.min_memory_occupancy →
      (aggregate sqrt acc ss).min_memory_occupancy = ss.min_memory_occupancy ∧
      (aggregate sqrt acc ss).min_occupancy_memory_public_ip =
        ss.min_occupancy_memory_public_ip ∧
      (aggregate sqrt acc ss).min_occupancy_memory_private_ip =
        ss.min_occupancy_memory_private_ip) ∧
    (¬ ss.min_memory_occupancy < acc.min_memory_occupancy →
      (aggregate sqrt acc ss).min_memory_occupancy = acc.min_memory_occupancy ∧
      (aggregate sqrt acc ss).min_occupancy_memory_public_ip =
        acc.min_occupancy_memory_public_ip ∧
      (aggregate sqrt acc ss).min_occupancy_memory_private_ip =
        acc.min_occupancy_memory_private_ip) ∧
    (((aggregate sqrt acc ss).min_occupancy_memory_public_ip ≠
          acc.min_occupancy_memory_public_ip ∨
        (aggregate sqrt acc ss).min_occupancy_memory_private_ip ≠
          acc.min_occupancy_memory_private_ip) →
      (aggregate sqrt acc ss).min_memory_occupancy = ss.min_memory_occupancy ∧
      ss.min_memory_occupancy < acc.min_memory_occupancy ∧
      (aggregate sqrt acc ss).min_memory_occupancy ≠ acc.min_memory_occupancy) ∧
    (((aggregate sqrt acc ss).min_memory_occupancy = ss.min_memory_occupancy ∧
        (aggregate sqrt acc ss).min_occupancy_memory_public_ip =
          ss.min_occupancy_memory_public_ip ∧
        (aggregate sqrt acc ss).min_occupancy_memory_private_ip =
          ss.min_occupancy_memory_private_ip) →
      ss.min_memory_occupancy < acc.min_memory_occupancy ∨
      (acc.min_memory_occupancy = ss.min_memory_occupancy ∧
        acc.min_occupancy_memory_public_ip = ss.min_occupancy_memory_public_ip ∧
        acc.min_occupancy_memory_private_ip = ss.min_occupancy_memory_private_ip)) := by
  refine ⟨aggregate_min_of_lt sqrt acc ss, aggregate_min_of_not_lt sqrt acc ss, ?_, ?_⟩
  · intro hne
    by_cases hlt : ss.min_memory_occupancy < acc.min_memory_occupancy
    · obtain ⟨hmin, -, -⟩ := aggregate_min_of_lt sqrt acc ss hlt
      exact ⟨hmin, hlt, by rw [hmin]; exact ne_of_lt hlt⟩
    · obtain ⟨-, hpub, hpriv⟩ := aggregate_min_of_not_lt sqrt acc ss hlt
      rcases hne with h | h
      · exact absurd hpub h
      · exact absurd hpriv h
  · rintro ⟨emin, epub, epriv⟩
    by_cases hlt : ss.min_memory_occupancy < acc.min_memory_occupancy
    · exact Or.inl hlt
    · obtain ⟨hmin, hpub, hpriv⟩ := aggregate_min_of_not_lt sqrt acc ss hlt
      exact Or.inr ⟨hmin.symm.trans emin, hpub.symm.trans epub, hpriv.symm.trans epriv⟩

/-- C3 at a concrete step: aggregating the lighter node into the half-occupied one
replaces minimum and both addresses by the lighter node's. -/
theorem aggregate_min_triple_example :
    lightNode.min_memory_occupancy < halfNode.min_memory_occupancy ∧
    (aggregate Rat.sqrt halfNode lightNode).min_memory_occupancy = 1 / 5 ∧
    (aggregate Rat.sqrt halfNode lightNode).min_occupancy_memory_public_ip = "54.0.0.3" ∧
    (aggregate Rat.sqrt halfNode lightNode).min_occupancy_memory_private_ip = "10.0.0.3" :=
  have h : lightNode.min_memory_occupancy < halfNode.min_memory_occupancy := by
    norm_num [lightNode, halfNode]
  ⟨h, (aggregate_min_triple Rat.sqrt halfNode lightNode).1 h⟩

/-! ### Required node counts -/

omit [FloorRing R] in
theorem kMaxMemoryNodeConsumption_pos : 0 < kMaxMemoryNodeConsumption R := by
  unfold kMaxMemoryNodeConsumption
  norm_num

theorem required_memory_node_eq (sqrt : R → R) (acc ss : SummaryStats R) :
    (aggregate sqrt acc ss).required_memory_node =
      if ss.memory_node_capacity ≠ 0 then
        doubleToUnsigned ⌈requiredNodeQuotient (aggregate sqrt acc ss).total_memory_consumption
          ss.memory_node_capacity⌉
      else 0 :=
  rfl

theorem required_ebs_node_eq (sqrt : R → R) (acc ss : SummaryStats R) :
    (aggregate sqrt acc ss).required_ebs_node =
      if ss.ebs_node_capacity ≠ 0 then
        doubleToUnsigned ⌈requiredNodeQuotient (aggregate sqrt acc ss).total_ebs_consumption
          ss.ebs_node_capacity⌉
      else 0 :=
  rfl

/-- The rounded divisor `0.6 * c` has the sign of the capacity `c`. -/
theorem rounded_divisor_nonneg {c : R} (hc : 0 ≤ c) :
    0 ≤ roundDouble (roundDouble (kMaxMemoryNodeConsumption R) * c) :=
  roundDouble_nonneg (mul_nonneg (roundDouble_nonneg kMaxMemoryNodeConsumption_pos.le) hc)

theorem rounded_divisor_nonpos {c : R} (hc : c ≤ 0) :
    roundDouble (roundDouble (kMaxMemoryNodeConsumption R) * c) ≤ 0 :=
  roundDouble_nonpos
    (mul_nonpos_of_nonneg_of_nonpos (roundDouble_nonneg kMaxMemoryNodeConsumption_pos.le) hc)

/-- The rounded divisor is nonzero for a nonzero capacity. -/
theorem rounded_divisor_ne_zero {c : R} (hc : c ≠ 0) :
    roundDouble (roundDouble (kMaxMemoryNodeConsumption R) * c) ≠ 0 :=
  roundDouble_ne_zero
    (mul_ne_zero (roundDouble_ne_zero (ne_of_gt kMaxMemoryNodeConsumption_pos)) hc)

theorem requiredNodeQuotient_nonneg (t : ℕ) {c : R} (hc : 0 ≤ c) :
    0 ≤ requiredNodeQuotient t c :=
  roundDouble_nonneg
    (div_nonneg (roundDouble_nonneg (Nat.cast_nonneg t)) (rounded_divisor_nonneg hc))

theorem requiredNodeQuotient_nonpos (t : ℕ) {c : R} (hc : c ≤ 0) :
    requiredNodeQuotient t c ≤ 0 :=
  roundDouble_nonpos
    (div_nonpos_of_nonneg_of_nonpos (roundDouble_nonneg (Nat.cast_nonneg t))
      (rounded_divisor_nonpos hc))

/-- For a nonnegative capacity the quotient, as computed in doubles, is monotone
in the total: every rounding step is monotone. -/
theorem requiredNodeQuotient_mono {t1 t2 : ℕ} (ht : t1 ≤ t2) {c : R} (hc : 0 ≤ c) :
    requiredNodeQuotient t1 c ≤ requiredNodeQuotient t2 c := by
  have hcast : (t1 : R) ≤ (t2 : R) := Nat.cast_le.mpr ht
  have hnum : roundDouble (t1 : R) ≤ roundDouble (t2 : R) :=
    roundDouble_mono_nonneg (Nat.cast_nonneg t1) hcast
  have hdiv : roundDouble (t1 : R) /
      roundDouble (roundDouble (kMaxMemoryNodeConsumption R) * c) ≤
      roundDouble (t2 : R) / roundDouble (roundDouble (kMaxMemoryNodeConsumption R) * c) :=
    div_le_div_of_nonneg_right hnum (rounded_divisor_nonneg hc)
  exact roundDouble_mono_nonneg
    (div_nonneg (roundDouble_nonneg (Nat.cast_nonneg t1)) (rounded_divisor_nonneg hc)) hdiv

/-- The node count stored by `aggregate` for a capacity `c` and a total `t`, as a
function of the two: monotone in `t` as long as both converted values lie in
`[0, 2^32)`, where the conversion to `unsigned` is defined. -/
theorem stored_count_mono (c : R) {t1 t2 : ℕ} (ht : t1 ≤ t2)
    (f1 : 0 ≤ ⌈requiredNodeQuotient t1 c⌉ ∧ ⌈requiredNodeQuotient t1 c⌉ < 2 ^ 32)
    (f2 : 0 ≤ ⌈requiredNodeQuotient t2 c⌉ ∧ ⌈requiredNodeQuotient t2 c⌉ < 2 ^ 32) :
    (if c ≠ 0 then doubleToUnsigned ⌈requiredNodeQuotient t1 c⌉ else 0) ≤
      (if c ≠ 0 then doubleToUnsigned ⌈requiredNodeQuotient t2 c⌉ else 0) := by
  by_cases hc0 : c = 0
  · rw [if_neg (not_not.mpr hc0), if_neg (not_not.mpr hc0)]
  · rw [if_pos hc0, if_pos hc0]
    have e1 := doubleToUnsigned_of_fits f1.1 f1.2
    have e2 := doubleToUnsigned_of_fits f2.1 f2.2
    have key : ⌈requiredNodeQuotient t1 c⌉ ≤ ⌈requiredNodeQuotient t2 c⌉ := by
      rcases lt_or_gt_of_ne hc0 with hneg | hpos
      · have hq : requiredNodeQuotient t1 c ≤ 0 := requiredNodeQuotient_nonpos t1 hneg.le
        have hle : ⌈requiredNodeQuotient t1 c⌉ ≤ 0 := Int.ceil_le.mpr (by simpa using hq)
        exact le_trans hle f2.1
      · exact Int.ceil_mono (requiredNodeQuotient_mono ht hpos.le)
    have : (doubleToUnsigned ⌈requiredNodeQuotient t1 c⌉ : ℤ) ≤
        (doubleToUnsigned ⌈requiredNodeQuotient t2 c⌉ : ℤ) := by
      rw [e1, e2]; exact key
    exact_mod_cast this

/-! Evaluation of the quotient at the concrete inputs used below. -/

theorem requiredNodeQuotient_three_one : requiredNodeQuotient 3 (1 : ℚ) = 5 :=
  requiredNodeQuotient_eval (p := 5404319552844595 / 9007199254740992) (v := 3)
    (by
      rw [roundDouble_eq_of_near (e := (-1)) (n := 5404319552844595) (by norm_num) (by norm_num)
        (by norm_num [abs_lt])]
      norm_num)
    (by
      rw [roundDouble_eq_of_near (e := 1) (n := 6755399441055744) (by norm_num) (by norm_num)
        (by norm_num [abs_lt])]
      norm_num)
    (by
      rw [roundDouble_eq_of_near (e := 2) (n := 5629499534213120) (by norm_num) (by norm_num)
        (by norm_num [abs_lt])]
      norm_num)

theorem requiredNodeQuotient_three_five : requiredNodeQuotient 3 (5 : ℚ) = 1 :=
  requiredNodeQuotient_eval (p := 3) (v := 3)
    (by
      rw [roundDouble_eq_of_near (e := 1) (n := 6755399441055744) (by norm_num) (by norm_num)
        (by norm_num [abs_lt])]
      norm_num)
    (by
      rw [roundDouble_eq_of_near (e := 1) (n := 6755399441055744) (by norm_num) (by norm_num)
        (by norm_num [abs_lt])]
      norm_num)
    (by
      rw [roundDouble_eq_of_near (e := 0) (n := 4503599627370496) (by norm_num) (by norm_num)
        (by norm_num [abs_lt])]
      norm_num)

theorem requiredNodeQuotient_six_five : requiredNodeQuotient 6 (5 : ℚ) = 2 :=
  requiredNodeQuotient_eval (p := 3) (v := 6)
    (by
      rw [roundDouble_eq_of_near (e := 1) (n := 6755399441055744) (by norm_num) (by norm_num)
        (by norm_num [abs_lt])]
      norm_num)
    (by
      rw [roundDouble_eq_of_near (e := 2) (n := 6755399441055744) (by norm_num) (by norm_num)
        (by norm_num [abs_lt])]
      norm_num)
    (by
      rw [roundDouble_eq_of_near (e := 1) (n := 4503599627370496) (by norm_num) (by norm_num)
        (by norm_num [abs_lt])]
      norm_num)

theorem requiredNodeQuotient_twelve_ten : requiredNodeQuotient 12 (10 : ℚ) = 2 :=
  requiredNodeQuotient_eval (p := 6) (v := 12)
    (by
      rw [roundDouble_eq_of_near (e := 2) (n := 6755399441055744) (by norm_num) (by norm_num)
        (by norm_num [abs_lt])]
      norm_num)
    (by
      rw [roundDouble_eq_of_near (e := 3) (n := 6755399441055744) (by norm_num) (by norm_num)
        (by norm_num [abs_lt])]
      norm_num)
    (by
      rw [roundDouble_eq_of_near (e := 1) (n := 4503599627370496) (by norm_num) (by norm_num)
        (by norm_num [abs_lt])]
      norm_num)

theorem requiredNodeQuotient_twelve_five : requiredNodeQuotient 12 (5 : ℚ) = 4 :=
  requiredNodeQuotient_eval (p := 3) (v := 12)
    (by
      rw [roundDouble_eq_of_near (e := 1) (n := 6755399441055744) (by norm_num) (by norm_num)
        (by norm_num [abs_lt])]
      norm_num)
    (by
      rw [roundDouble_eq_of_near (e := 3) (n := 6755399441055744) (by norm_num) (by norm_num)
        (by norm_num [abs_lt])]
      norm_num)
    (by
      rw [roundDouble_eq_of_near (e := 2) (n := 4503599627370496) (by norm_num) (by norm_num)
        (by norm_num [abs_lt])]
      norm_num)

theorem requiredNodeQuotient_huge_five : requiredNodeQuotient 12884901888 (5 : ℚ) = 4294967296 :=
  requiredNodeQuotient_eval (p := 3) (v := 12884901888)
    (by
      rw [roundDouble_eq_of_near (e := 1) (n := 6755399441055744) (by norm_num) (by norm_num)
        (by norm_num [abs_lt])]
      norm_num)
    (by
      rw [roundDouble_eq_of_near (e := 33) (n := 6755399441055744) (by norm_num) (by norm_num)
        (by norm_num [abs_lt])]
      norm_num)
    (by
      rw [roundDouble_eq_of_near (e := 32) (n := 4503599627370496) (by norm_num) (by norm_num)
        (by norm_num [abs_lt])]
      norm_num)

theorem requiredNodeQuotient_nine_three : requiredNodeQuotient 9 (3 : ℚ) = 5629499534213121 / 1125899906842624 :=
  requiredNodeQuotient_eval (p := 2026619832316723 / 1125899906842624) (v := 9)
    (by
      rw [roundDouble_eq_of_tie_even (e := 0) (n := 8106479329266892) (by norm_num) (by norm_num)
        (by norm_num) (by norm_num)]
      norm_num)
    (by
      rw [roundDouble_eq_of_near (e := 3) (n := 5066549580791808) (by norm_num) (by norm_num)
        (by norm_num [abs_lt])]
      norm_num)
    (by
      rw [roundDouble_eq_of_near (e := 2) (n := 5629499534213121) (by norm_num) (by norm_num)
        (by norm_num [abs_lt])]
      norm_num)

theorem doubleToUnsigned_natCast {n : ℕ} (h : n < 2 ^ 32) : doubleToUnsigned (n : ℤ) = n := by
  have e := doubleToUnsigned_of_fits (Int.natCast_nonneg n) (by exact_mod_cast h)
  exact_mod_cast e

/-- C4, the code at a concrete input: a node holding 3 bytes on the EBS tier with
EBS node capacity 1 is aggregated into a cleared accumulator.  The code stores
`required_ebs_node = 5 = ceil(3 / (0.6 * 1))`, dividing by the memory tier's
threshold, whereas the EBS tier's threshold gives `ceil(3 / (0.75 * 1)) = 4`. -/
theorem aggregate_required_ebs_node_uses_memory_threshold :
    ebsNode.InRange ∧ 0 < ebsNode.ebs_node_capacity ∧
    (aggregate Rat.sqrt blank ebsNode).total_ebs_consumption = 3 ∧
    (aggregate Rat.sqrt blank ebsNode).required_ebs_node = 5 ∧
    ⌈(((aggregate Rat.sqrt blank ebsNode).total_ebs_consumption : ℚ)) /
      (kMaxEbsNodeConsumption ℚ * ebsNode.ebs_node_capacity)⌉ = 4 ∧
    ⌈(((aggregate Rat.sqrt blank ebsNode).total_ebs_consumption : ℚ)) /
      (kMaxMemoryNodeConsumption ℚ * ebsNode.ebs_node_capacity)⌉ = 5 := by
  have ht : (aggregate Rat.sqrt blank ebsNode).total_ebs_consumption = 3 := by
    norm_num [aggregate, ebsNode, blank, addULongLong, kULongLongRange]
  have hc : ebsNode.ebs_node_capacity = 1 := rfl
  refine ⟨?_, ?_, ht, ?_, ?_, ?_⟩
  · norm_num [InRange, ebsNode, blank, kUnsignedRange, kULongLongRange]
  · norm_num [ebsNode]
  · rw [required_ebs_node_eq, ht, hc, if_pos one_ne_zero, requiredNodeQuotient_three_one]
    have h5 : ⌈(5 : ℚ)⌉ = ((5 : ℕ) : ℤ) := by norm_num
    rw [h5, doubleToUnsigned_natCast (by norm_num)]
  · rw [ht]
    norm_num [ebsNode, kMaxEbsNodeConsumption]
  · rw [ht]
    norm_num [ebsNode, kMaxMemoryNodeConsumption]

/-- C5 (as amended): write `T` for the `total_memory_consumption` field after the
call; it is the accumulator's plus the operand's value (their plain sum whenever
that is below `2^64`).  Write `q` for `T / (kMaxMemoryNodeConsumption * c)` as
the code evaluates it in double arithmetic, `c` being the operand's capacity and
`kMaxMemoryNodeConsumption = 0.6`: the constant is the double nearest to `0.6`,
`T` is converted to a double, and the product and the quotient are each rounded
to the nearest double.  For a positive capacity, if `ceil(q)` is below `2^32`,
then `required_memory_node` equals `ceil(q)`; and `required_memory_node` is `0`
when the operand's capacity is `0`. -/
theorem aggregate_required_memory_node (sqrt : R → R) (acc ss : SummaryStats R) :
    kMaxMemoryNodeConsumption R = 6 / 10 ∧
    (∀ (t : ℕ) (c : R),
      requiredNodeQuotient t c =
        roundDouble (roundDouble (t : R) /
          roundDouble (roundDouble (kMaxMemoryNodeConsumption R) * c))) ∧
    (acc.total_memory_consumption + ss.total_memory_consumption < 2 ^ 64 →
      (aggregate sqrt acc ss).total_memory_consumption =
        acc.total_memory_consumption + ss.total_memory_consumption) ∧
    (0 < ss.memory_node_capacity →
      ⌈requiredNodeQuotient (aggregate sqrt acc ss).total_memory_consumption
        ss.memory_node_capacity⌉ < 2 ^ 32 →
      ((aggregate sqrt acc ss).required_memory_node : ℤ) =
        ⌈requiredNodeQuotient (aggregate sqrt acc ss).total_memory_consumption
          ss.memory_node_capacity⌉) ∧
    (ss.memory_node_capacity = 0 → (aggregate sqrt acc ss).required_memory_node = 0) := by
  refine ⟨?_, fun _ _ => rfl, ?_, ?_, ?_⟩
  · unfold kMaxMemoryNodeConsumption
    norm_num
  · intro h
    exact addULongLong_of_lt h
  · intro hc hfit
    rw [required_memory_node_eq, if_pos (ne_of_gt hc)]
    exact doubleToUnsigned_of_fits (Int.ceil_nonneg (requiredNodeQuotient_nonneg _ hc.le)) hfit
  · intro hc
    rw [required_memory_node_eq, if_neg (not_not.mpr hc)]

/-- C5 at a concrete step: 3 bytes at capacity 5 need one memory node; in doubles
`0.6 * 5` is `3` and the quotient is `1`. -/
theorem aggregate_required_memory_node_example :
    0 < tinyMemoryNode.memory_node_capacity ∧
    ⌈requiredNodeQuotient (aggregate Rat.sqrt blank tinyMemoryNode).total_memory_consumption
      tinyMemoryNode.memory_node_capacity⌉ < 2 ^ 32 ∧
    ((aggregate Rat.sqrt blank tinyMemoryNode).required_memory_node : ℤ) =
      ⌈requiredNodeQuotient (aggregate Rat.sqrt blank tinyMemoryNode).total_memory_consumption
        tinyMemoryNode.memory_node_capacity⌉ ∧
    ⌈requiredNodeQuotient (aggregate Rat.sqrt blank tinyMemoryNode).total_memory_consumption
      tinyMemoryNode.memory_node_capacity⌉ = 1 := by
  have ht : (aggregate Rat.sqrt blank tinyMemoryNode).total_memory_consumption = 3 := by
    norm_num [aggregate, tinyMemoryNode, blank, addULongLong, kULongLongRange]
  have hc : 0 < tinyMemoryNode.memory_node_capacity := by norm_num [tinyMemoryNode]
  have hc5 : tinyMemoryNode.memory_node_capacity = 5 := rfl
  have hv : ⌈requiredNodeQuotient
      (aggregate Rat.sqrt blank tinyMemoryNode).total_memory_consumption
      tinyMemoryNode.memory_node_capacity⌉ = 1 := by
    rw [ht, hc5, requiredNodeQuotient_three_five]
    norm_num
  have hfit : ⌈requiredNodeQuotient
      (aggregate Rat.sqrt blank tinyMemoryNode).total_memory_consumption
      tinyMemoryNode.memory_node_capacity⌉ < 2 ^ 32 := by
    rw [hv]; norm_num
  exact ⟨hc, hfit,
    (aggregate_required_memory_node Rat.sqrt blank tinyMemoryNode).2.2.2.1 hc hfit, hv⟩

/-- C5 fails as stated, at two inputs.  With 9 bytes at the positive capacity 3
the claim's value is `ceil(9 / (0.6 * 3)) = 5`, but the code stores `6`: in
doubles `0.6 * 3` is `1.7999999999999998` and the quotient is just above `5`.
With `3 * 2^32` bytes at capacity 5 the claim's value is `2^32`, which no value of
the unsigned field equals. -/
theorem aggregate_required_memory_node_differs :
    nineByteNode.InRange ∧ 0 < nineByteNode.memory_node_capacity ∧
    (aggregate Rat.sqrt blank nineByteNode).total_memory_consumption =
      blank.total_memory_consumption + nineByteNode.total_memory_consumption ∧
    ⌈((aggregate Rat.sqrt blank nineByteNode).total_memory_consumption : ℚ) /
      (kMaxMemoryNodeConsumption ℚ * nineByteNode.memory_node_capacity)⌉ = 5 ∧
    (aggregate Rat.sqrt blank nineByteNode).required_memory_node = 6 ∧
    ((aggregate Rat.sqrt blank nineByteNode).required_memory_node : ℤ) ≠
      ⌈((aggregate Rat.sqrt blank nineByteNode).total_memory_consumption : ℚ) /
        (kMaxMemoryNodeConsumption ℚ * nineByteNode.memory_node_capacity)⌉ ∧
    hugeMemoryNode.InRange ∧ 0 < hugeMemoryNode.memory_node_capacity ∧
    (aggregate Rat.sqrt blank hugeMemoryNode).total_memory_consumption =
      blank.total_memory_consumption + hugeMemoryNode.total_memory_consumption ∧
    ⌈((aggregate Rat.sqrt blank hugeMemoryNode).total_memory_consumption : ℚ) /
      (kMaxMemoryNodeConsumption ℚ * hugeMemoryNode.memory_node_capacity)⌉ = 2 ^ 32 ∧
    ((aggregate Rat.sqrt blank hugeMemoryNode).required_memory_node : ℤ) ≠
      ⌈((aggregate Rat.sqrt blank hugeMemoryNode).total_memory_consumption : ℚ) /
        (kMaxMemoryNodeConsumption ℚ * hugeMemoryNode.memory_node_capacity)⌉ := by
  have t9 : (aggregate Rat.sqrt blank nineByteNode).total_memory_consumption = 9 := by
    norm_num [aggregate, nineByteNode, blank, addULongLong, kULongLongRange]
  have c9 : nineByteNode.memory_node_capacity = 3 := rfl
  have v9 : ⌈((aggregate Rat.sqrt blank nineByteNode).total_memory_consumption : ℚ) /
      (kMaxMemoryNodeConsumption ℚ * nineByteNode.memory_node_capacity)⌉ = 5 := by
    rw [t9, c9]
    norm_num [kMaxMemoryNodeConsumption]
  have r9 : (aggregate Rat.sqrt blank nineByteNode).required_memory_node = 6 := by
    rw [required_memory_node_eq, t9, c9, if_pos (by norm_num), requiredNodeQuotient_nine_three]
    have h6 : ⌈(5629499534213121 / 1125899906842624 : ℚ)⌉ = ((6 : ℕ) : ℤ) := by
      rw [Int.ceil_eq_iff]
      constructor <;> norm_num
    rw [h6, doubleToUnsigned_natCast (by norm_num)]
  have th : (aggregate Rat.sqrt blank hugeMemoryNode).total_memory_consumption =
      12884901888 := by
    norm_num [aggregate, hugeMemoryNode, blank, addULongLong, kULongLongRange]
  have vh : ⌈((aggregate Rat.sqrt blank hugeMemoryNode).total_memory_consumption : ℚ) /
      (kMaxMemoryNodeConsumption ℚ * hugeMemoryNode.memory_node_capacity)⌉ = 2 ^ 32 := by
    rw [th]
    norm_num [hugeMemoryNode, kMaxMemoryNodeConsumption]
  have rh : (aggregate Rat.sqrt blank hugeMemoryNode).required_memory_node < 2 ^ 32 :=
    (aggregate_inRange Rat.sqrt blank hugeMemoryNode).2.2.2.2.2.2.2.1
  refine ⟨?_, ?_, ?_, v9, r9, ?_, ?_, ?_, ?_, vh, ?_⟩
  · norm_num [InRange, nineByteNode, blank, kUnsignedRange, kULongLongRange]
  · norm_num [nineByteNode]
  · rw [t9]; norm_num [nineByteNode, blank]
  · rw [r9, v9]; norm_num
  · norm_num [InRange, hugeMemoryNode, blank, kUnsignedRange, kULongLongRange]
  · norm_num [hugeMemoryNode]
  · rw [th]; norm_num [hugeMemoryNode, blank]
  · rw [vh]
    have : ((aggregate Rat.sqrt blank hugeMemoryNode).required_memory_node : ℤ) < 2 ^ 32 := by
      exact_mod_cast rh
    exact ne_of_lt this

/-- C6 (as amended): take two `aggregate` calls whose operands carry the same
capacity `c` for a tier, and let `t1 ≤ t2` be the tier's combined total
consumption after each call.  If in both calls the value that is converted to
the unsigned count (the ceiling of the quotient as the code computes it in double
arithmetic) lies in `[0, 2^32)`, where that conversion is defined, then the stored
required node counts satisfy `r1 ≤ r2`.  The stored count is `0` whenever the
capacity is `0`.  Both statements hold for the memory tier and for the EBS
tier. -/
theorem aggregate_required_node_mono (sqrt : R → R) (acc1 ss1 acc2 ss2 : SummaryStats R) :
    (ss1.memory_node_capacity = ss2.memory_node_capacity →
      (aggregate sqrt acc1 ss1).total_memory_consumption ≤
        (aggregate sqrt acc2 ss2).total_memory_consumption →
      (0 ≤ ⌈requiredNodeQuotient (aggregate sqrt acc1 ss1).total_memory_consumption
          ss1.memory_node_capacity⌉ ∧
        ⌈requiredNodeQuotient (aggregate sqrt acc1 ss1).total_memory_consumption
          ss1.memory_node_capacity⌉ < 2 ^ 32) →
      (0 ≤ ⌈requiredNodeQuotient (aggregate sqrt acc2 ss2).total_memory_consumption
          ss2.memory_node_capacity⌉ ∧
        ⌈requiredNodeQuotient (aggregate sqrt acc2 ss2).total_memory_consumption
          ss2.memory_node_capacity⌉ < 2 ^ 32) →
      (aggregate sqrt acc1 ss1).required_memory_node ≤
        (aggregate sqrt acc2 ss2).required_memory_node) ∧
    (ss1.memory_node_capacity = 0 → (aggregate sqrt acc1 ss1).required_memory_node = 0) ∧
    (ss1.ebs_node_capacity = ss2.ebs_node_capacity →
      (aggregate sqrt acc1 ss1).total_ebs_consumption ≤
        (aggregate sqrt acc2 ss2).total_ebs_consumption →
      (0 ≤ ⌈requiredNodeQuotient (aggregate sqrt acc1 ss1).total_ebs_consumption
          ss1.ebs_node_capacity⌉ ∧
        ⌈requiredNodeQuotient (aggregate sqrt acc1 ss1).total_ebs_consumption
          ss1.ebs_node_capacity⌉ < 2 ^ 32) →
      (0 ≤ ⌈requiredNodeQuotient (aggregate sqrt acc2 ss2).total_ebs_consumption
          ss2.ebs_node_capacity⌉ ∧
        ⌈requiredNodeQuotient (aggregate sqrt acc2 ss2).total_ebs_consumption
          ss2.ebs_node_capacity⌉ < 2 ^ 32) →
      (aggregate sqrt acc1 ss1).required_ebs_node ≤
        (aggregate sqrt acc2 ss2).required_ebs_node) ∧
    (ss1.ebs_node_capacity = 0 → (aggregate sqrt acc1 ss1).required_ebs_node = 0) := by
  refine ⟨?_, ?_, ?_, ?_⟩
  · intro hc ht f1 f2
    rw [required_memory_node_eq, required_memory_node_eq]
    rw [← hc] at f2 ⊢
    exact stored_count_mono _ ht f1 f2
  · intro hc
    rw [required_memory_node_eq, if_neg (not_not.mpr hc)]
  · intro hc ht f1 f2
    rw [required_ebs_node_eq, required_ebs_node_eq]
    rw [← hc] at f2 ⊢
    exact stored_count_mono _ ht f1 f2
  · intro hc
    rw [required_ebs_node_eq, if_neg (not_not.mpr hc)]

/-- C6 at a concrete pair of calls: at capacity 5, a total of 3 bytes needs one
memory node and a total of 6 bytes needs two. -/
theorem aggregate_required_node_mono_example :
    tinyMemoryNode.memory_node_capacity = smallCapacityNode.memory_node_capacity ∧
    (aggregate Rat.sqrt blank tinyMemoryNode).total_memory_consumption ≤
      (aggregate Rat.sqrt blank smallCapacityNode).total_memory_consumption ∧
    (aggregate Rat.sqrt blank tinyMemoryNode).required_memory_node ≤
      (aggregate Rat.sqrt blank smallCapacityNode).required_memory_node := by
  have hc : tinyMemoryNode.memory_node_capacity = smallCapacityNode.memory_node_capacity := rfl
  have c1 : tinyMemoryNode.memory_node_capacity = 5 := rfl
  have c2 : smallCapacityNode.memory_node_capacity = 5 := rfl
  have t1 : (aggregate Rat.sqrt blank tinyMemoryNode).total_memory_consumption = 3 := by
    norm_num [aggregate, tinyMemoryNode, blank, addULongLong, kULongLongRange]
  have t2 : (aggregate Rat.sqrt blank smallCapacityNode).total_memory_consumption = 6 := by
    norm_num [aggregate, smallCapacityNode, blank, addULongLong, kULongLongRange]
  have ht : (aggregate Rat.sqrt blank tinyMemoryNode).total_memory_consumption ≤
      (aggregate Rat.sqrt blank smallCapacityNode).total_memory_consumption := by
    rw [t1, t2]; norm_num
  exact ⟨hc, ht,
    (aggregate_required_node_mono Rat.sqrt blank tinyMemoryNode blank smallCapacityNode).1 hc ht
      (by rw [t1, c1, requiredNodeQuotient_three_five]; norm_num)
      (by rw [t2, c2, requiredNodeQuotient_six_five]; norm_num)⟩

/-- C6 fails as stated: at the same capacity 5 the totals satisfy
`3 ≤ 3 * 2^32`.  The first call stores the count `1`.  In the second call the
value to be converted is `2^32`, for which the language defines no result; the
x86-64 conversion yields `0`, so the stored counts are `1` and `0`. -/
theorem aggregate_required_node_not_mono :
    tinyMemoryNode.InRange ∧ hugeMemoryNode.InRange ∧
    tinyMemoryNode.memory_node_capacity = hugeMemoryNode.memory_node_capacity ∧
    (aggregate Rat.sqrt blank tinyMemoryNode).total_memory_consumption ≤
      (aggregate Rat.sqrt blank hugeMemoryNode).total_memory_consumption ∧
    (aggregate Rat.sqrt blank tinyMemoryNode).required_memory_node = 1 ∧
    ⌈requiredNodeQuotient (aggregate Rat.sqrt blank hugeMemoryNode).total_memory_consumption
      hugeMemoryNode.memory_node_capacity⌉ = 2 ^ 32 ∧
    doubleToUnsignedDefined
      ⌈requiredNodeQuotient (aggregate Rat.sqrt blank hugeMemoryNode).total_memory_consumption
        hugeMemoryNode.memory_node_capacity⌉ = none ∧
    (aggregate Rat.sqrt blank hugeMemoryNode).required_memory_node = 0 ∧
    ¬ (aggregate Rat.sqrt blank tinyMemoryNode).required_memory_node ≤
      (aggregate Rat.sqrt blank hugeMemoryNode).required_memory_node := by
  have c1 : tinyMemoryNode.memory_node_capacity = 5 := rfl
  have c2 : hugeMemoryNode.memory_node_capacity = 5 := rfl
  have t1 : (aggregate Rat.sqrt blank tinyMemoryNode).total_memory_consumption = 3 := by
    norm_num [aggregate, tinyMemoryNode, blank, addULongLong, kULongLongRange]
  have t2 : (aggregate Rat.sqrt blank hugeMemoryNode).total_memory_consumption =
      12884901888 := by
    norm_num [aggregate, hugeMemoryNode, blank, addULongLong, kULongLongRange]
  have q2 : ⌈requiredNodeQuotient
      (aggregate Rat.sqrt blank hugeMemoryNode).total_memory_consumption
      hugeMemoryNode.memory_node_capacity⌉ = 2 ^ 32 := by
    rw [t2, c2, requiredNodeQuotient_huge_five]
    norm_num
  have r1 : (aggregate Rat.sqrt blank tinyMemoryNode).required_memory_node = 1 := by
    rw [required_memory_node_eq, t1, c1, if_pos (by norm_num), requiredNodeQuotient_three_five]
    have h1 : ⌈(1 : ℚ)⌉ = ((1 : ℕ) : ℤ) := by norm_num
    rw [h1, doubleToUnsigned_natCast (by norm_num)]
  have r2 : (aggregate Rat.sqrt blank hugeMemoryNode).required_memory_node = 0 := by
    rw [required_memory_node_eq, q2, c2, if_pos (by norm_num)]
    norm_num [doubleToUnsigned, kUnsignedRange]
  refine ⟨?_, ?_, rfl, ?_, r1, q2, ?_, r2, ?_⟩
  · norm_num [InRange, tinyMemoryNode, blank, kUnsignedRange, kULongLongRange]
  · norm_num [InRange, hugeMemoryNode, blank, kUnsignedRange, kULongLongRange]
  · rw [t1, t2]; norm_num
  · rw [q2]
    norm_num [doubleToUnsignedDefined, kUnsignedRange]
  · rw [r1, r2]; norm_num

/-! ### Capacity fields -/

/-- C7: aggregation is order-significant for the fields derived from capacity.
Two snapshots that differ in `memory_node_capacity` (5 and 10, each holding 6
bytes) give, in the two orders, different `memory_node_capacity` (10 and 5) and
different `required_memory_node` (2 and 4), while `total_memory_consumption` is
12 in both orders. -/
theorem aggregate_capacity_order_significant :
    ∃ a b : SummaryStats ℚ,
      a.InRange ∧ b.InRange ∧
      a.memory_node_capacity ≠ b.memory_node_capacity ∧
      (aggregate Rat.sqrt a b).memory_node_capacity ≠
        (aggregate Rat.sqrt b a).memory_node_capacity ∧
      (aggregate Rat.sqrt a b).required_memory_node ≠
        (aggregate Rat.sqrt b a).required_memory_node ∧
      (aggregate Rat.sqrt a b).total_memory_consumption =
        (aggregate Rat.sqrt b a).total_memory_consumption := by
  have tab : (aggregate Rat.sqrt smallCapacityNode largeCapacityNode).total_memory_consumption
      = 12 := by
    norm_num [aggregate, smallCapacityNode, largeCapacityNode, blank, addULongLong,
      kULongLongRange]
  have tba : (aggregate Rat.sqrt largeCapacityNode smallCapacityNode).total_memory_consumption
      = 12 := by
    norm_num [aggregate, smallCapacityNode, largeCapacityNode, blank, addULongLong,
      kULongLongRange]
  have rab : (aggregate Rat.sqrt smallCapacityNode largeCapacityNode).required_memory_node
      = 2 := by
    have hc : largeCapacityNode.memory_node_capacity = 10 := rfl
    have h2 : ⌈(2 : ℚ)⌉ = ((2 : ℕ) : ℤ) := by norm_num
    rw [required_memory_node_eq, tab, hc, if_pos (by norm_num), requiredNodeQuotient_twelve_ten,
      h2, doubleToUnsigned_natCast (by norm_num)]
  have rba : (aggregate Rat.sqrt largeCapacityNode smallCapacityNode).required_memory_node
      = 4 := by
    have hc : smallCapacityNode.memory_node_capacity = 5 := rfl
    have h4 : ⌈(4 : ℚ)⌉ = ((4 : ℕ) : ℤ) := by norm_num
    rw [required_memory_node_eq, tba, hc, if_pos (by norm_num), requiredNodeQuotient_twelve_five,
      h4, doubleToUnsigned_natCast (by norm_num)]
  refine ⟨smallCapacityNode, largeCapacityNode, ?_, ?_, ?_, ?_, ?_, ?_⟩
  · norm_num [InRange, smallCapacityNode, blank, kUnsignedRange, kULongLongRange]
  · norm_num [InRange, largeCapacityNode, blank, kUnsignedRange, kULongLongRange]
  · norm_num [smallCapacityNode, largeCapacityNode]
  · show largeCapacityNode.memory_node_capacity ≠ smallCapacityNode.memory_node_capacity
    norm_num [smallCapacityNode, largeCapacityNode]
  · rw [rab, rba]; norm_num
  · rw [tab, tba]

/-- C8: after `aggregate` the two capacity fields are exactly the operand's, and
the accumulator's previous capacities influence no field of the result: replacing
them by any other values gives the same result. -/
theorem aggregate_capacity_overwritten (sqrt : R → R) (acc ss : SummaryStats R) :
    (aggregate sqrt acc ss).memory_node_capacity = ss.memory_node_capacity ∧
    (aggregate sqrt acc ss).ebs_node_capacity = ss.ebs_node_capacity ∧
    ∀ m e : R,
      aggregate sqrt { acc with memory_node_capacity := m, ebs_node_capacity := e } ss =
        aggregate sqrt acc ss :=
  ⟨rfl, rfl, fun _ _ => rfl⟩

/-! ### `clear()` and the first aggregation after it -/

/-- C9: for an operand `ss` whose integer fields are values of their unsigned
types and whose four occupancy extremes lie in `[0,1]`, `clear()` followed by
`aggregate(ss)` yields the operand's value in every additive field, and the
sentinels `min = 1` / `max = 0` are overwritten by the operand's minimum and
maximum occupancies. -/
theorem clear_then_aggregate (sqrt : R → R) (acc ss : SummaryStats R) (hr : ss.InRange)
    (hmaxm : 0 ≤ ss.max_memory_occupancy ∧ ss.max_memory_occupancy ≤ 1)
    (hminm : 0 ≤ ss.min_memory_occupancy ∧ ss.min_memory_occupancy ≤ 1)
    (hmaxe : 0 ≤ ss.max_ebs_occupancy ∧ ss.max_ebs_occupancy ≤ 1)
    (hmine : 0 ≤ ss.min_ebs_occupancy ∧ ss.min_ebs_occupancy ≤ 1) :
    (aggregate sqrt acc.clear ss).key_access_cnt = ss.key_access_cnt ∧
    (aggregate sqrt acc.clear ss).total_memory_count = ss.total_memory_count ∧
    (aggregate sqrt acc.clear ss).total_memory_access = ss.total_memory_access ∧
    (aggregate sqrt acc.clear ss).total_ebs_count = ss.total_ebs_count ∧
    (aggregate sqrt acc.clear ss).total_ebs_access = ss.total_ebs_access ∧
    (aggregate sqrt acc.clear ss).total_memory_consumption = ss.total_memory_consumption ∧
    (aggregate sqrt acc.clear ss).total_ebs_consumption = ss.total_ebs_consumption ∧
    (aggregate sqrt acc.clear ss).sum_memory_occupancy = ss.sum_memory_occupancy ∧
    (aggregate sqrt acc.clear ss).cnt_memory_occupancy = ss.cnt_memory_occupancy ∧
    (aggregate sqrt acc.clear ss).sum_ebs_occupancy = ss.sum_ebs_occupancy ∧
    (aggregate sqrt acc.clear ss).cnt_ebs_occupancy = ss.cnt_ebs_occupancy ∧
    (aggregate sqrt acc.clear ss).sum_latency = ss.sum_latency ∧
    (aggregate sqrt acc.clear ss).cnt_latency = ss.cnt_latency ∧
    (aggregate sqrt acc.clear ss).total_throughput = ss.total_throughput ∧
    (aggregate sqrt acc.clear ss).max_memory_occupancy = ss.max_memory_occupancy ∧
    (aggregate sqrt acc.clear ss).min_memory_occupancy = ss.min_memory_occupancy ∧
    (aggregate sqrt acc.clear ss).max_ebs_occupancy = ss.max_ebs_occupancy ∧
    (aggregate sqrt acc.clear ss).min_ebs_occupancy = ss.min_ebs_occupancy := by
  obtain ⟨h1, h2, h3, h4, h5, h6, h7, -, -, h10, h11, h12⟩ := hr
  refine ⟨?_, ?_, ?_, ?_, ?_, ?_, ?_, ?_, ?_, ?_, ?_, ?_, ?_, ?_, ?_, ?_, ?_, ?_⟩
  · show addUnsigned 0 ss.key_access_cnt = _
    exact addUnsigned_zero_left h1
  · show addUnsigned 0 ss.total_memory_count = _
    exact addUnsigned_zero_left h2
  · show addUnsigned 0 ss.total_memory_access = _
    exact addUnsigned_zero_left h3
  · show addUnsigned 0 ss.total_ebs_count = _
    exact addUnsigned_zero_left h4
  · show addUnsigned 0 ss.total_ebs_access = _
    exact addUnsigned_zero_left h5
  · show addULongLong 0 ss.total_memory_consumption = _
    exact addULongLong_zero_left h6
  · show addULongLong 0 ss.total_ebs_consumption = _
    exact addULongLong_zero_left h7
  · show (0 : R) + ss.sum_memory_occupancy = _
    exact zero_add _
  · show addUnsigned 0 ss.cnt_memory_occupancy = _
    exact addUnsigned_zero_left h10
  · show (0 : R) + ss.sum_ebs_occupancy = _
    exact zero_add _
  · show addUnsigned 0 ss.cnt_ebs_occupancy = _
    exact addUnsigned_zero_left h11
  · show (0 : R) + ss.sum_latency = _
    exact zero_add _
  · show addUnsigned 0 ss.cnt_latency = _
    exact addUnsigned_zero_left h12
  · show (0 : R) + ss.total_throughput = _
    exact zero_add _
  · show max (0 : R) ss.max_memory_occupancy = _
    exact max_eq_right hmaxm.1
  · show min (1 : R) ss.min_memory_occupancy = _
    exact min_eq_right hminm.2
  · show max (0 : R) ss.max_ebs_occupancy = _
    exact max_eq_right hmaxe.1
  · show min (1 : R) ss.min_ebs_occupancy = _
    exact min_eq_right hmine.2

/-- C9 at a concrete operand: clearing an accumulator and aggregating `busyNode`
reproduces, among others, its access count 7, its 1000 bytes of memory
consumption and its minimum memory occupancy `1/10`. -/
theorem clear_then_aggregate_example :
    busyNode.InRange ∧
    (0 ≤ busyNode.max_memory_occupancy ∧ busyNode.max_memory_occupancy ≤ 1) ∧
    (0 ≤ busyNode.min_memory_occupancy ∧ busyNode.min_memory_occupancy ≤ 1) ∧
    (0 ≤ busyNode.max_ebs_occupancy ∧ busyNode.max_ebs_occupancy ≤ 1) ∧
    (0 ≤ busyNode.min_ebs_occupancy ∧ busyNode.min_ebs_occupancy ≤ 1) ∧
    (aggregate Rat.sqrt hugeMemoryNode.clear busyNode).key_access_cnt = 7 ∧
    (aggregate Rat.sqrt hugeMemoryNode.clear busyNode).total_memory_consumption = 1000 ∧
    (aggregate Rat.sqrt hugeMemoryNode.clear busyNode).min_memory_occupancy = 1 / 10 := by
  have hr : busyNode.InRange := by
    norm_num [InRange, busyNode, kUnsignedRange, kULongLongRange]
  have h1 : 0 ≤ busyNode.max_memory_occupancy ∧ busyNode.max_memory_occupancy ≤ 1 := by
    norm_num [busyNode]
  have h2 : 0 ≤ busyNode.min_memory_occupancy ∧ busyNode.min_memory_occupancy ≤ 1 := by
    norm_num [busyNode]
  have h3 : 0 ≤ busyNode.max_ebs_occupancy ∧ busyNode.max_ebs_occupancy ≤ 1 := by
    norm_num [busyNode]
  have h4 : 0 ≤ busyNode.min_ebs_occupancy ∧ busyNode.min_ebs_occupancy ≤ 1 := by
    norm_num [busyNode]
  have h := clear_then_aggregate Rat.sqrt hugeMemoryNode busyNode hr h1 h2 h3 h4
  exact ⟨hr, h1, h2, h3, h4, h.1, h.2.2.2.2.2.1, h.2.2.2.2.2.2.2.2.2.2.2.2.2.2.2.1⟩

omit [FloorRing R] in
/-- C10: `clear()` sets every count, sum, total, mean, standard deviation, average,
peak percentage and required-node field to `0`, both minimum occupancies to `1`,
both maximum occupancies to `0`, and the two address fields to the empty
`Address`; a default-constructed `SummaryStats` has the same values in all these
fields, whatever its storage held before. -/
theorem clear_resets (s raw : SummaryStats R) :
    (    s.clear.key_access_cnt = 0 ∧
    s.clear.key_access_mean = 0 ∧
    s.clear.key_access_std = 0 ∧
    s.clear.total_memory_count = 0 ∧
    s.clear.total_memory_access = 0 ∧
    s.clear.total_ebs_count = 0 ∧
    s.clear.total_ebs_access = 0 ∧
    s.clear.total_memory_consumption = 0 ∧
    s.clear.total_ebs_consumption = 0 ∧
    s.clear.max_memory_consumption_percentage = 0 ∧
    s.clear.max_ebs_consumption_percentage = 0 ∧
    s.clear.avg_memory_consumption_percentage = 0 ∧
    s.clear.avg_ebs_consumption_percentage = 0 ∧
    s.clear.required_memory_node = 0 ∧
    s.clear.required_ebs_node = 0 ∧
    s.clear.max_memory_occupancy = 0 ∧
    s.clear.min_memory_occupancy = 1 ∧
    s.clear.avg_memory_occupancy = 0 ∧
    s.clear.sum_memory_occupancy = 0 ∧
    s.clear.cnt_memory_occupancy = 0 ∧
    s.clear.max_ebs_occupancy = 0 ∧
    s.clear.min_ebs_occupancy = 1 ∧
    s.clear.avg_ebs_occupancy = 0 ∧
    s.clear.sum_ebs_occupancy = 0 ∧
    s.clear.cnt_ebs_occupancy = 0 ∧
    s.clear.min_occupancy_memory_public_ip = Address.empty ∧
    s.clear.min_occupancy_memory_private_ip = Address.empty ∧
    s.clear.sum_latency = 0 ∧
    s.clear.cnt_latency = 0 ∧
    s.clear.avg_latency = 0 ∧
    s.clear.total_throughput = 0) ∧
    (    raw.construct.key_access_cnt = 0 ∧
    raw.construct.key_access_mean = 0 ∧
    raw.construct.key_access_std = 0 ∧
    raw.construct.total_memory_count = 0 ∧
    raw.construct.total_memory_access = 0 ∧
    raw.construct.total_ebs_count = 0 ∧
    raw.construct.total_ebs_access = 0 ∧
    raw.construct.total_memory_consumption = 0 ∧
    raw.construct.total_ebs_consumption = 0 ∧
    raw.construct.max_memory_consumption_percentage = 0 ∧
    raw.construct.max_ebs_consumption_percentage = 0 ∧
    raw.construct.avg_memory_consumption_percentage = 0 ∧
    raw.construct.avg_ebs_consumption_percentage = 0 ∧
    raw.construct.required_memory_node = 0 ∧
    raw.construct.required_ebs_node = 0 ∧
    raw.construct.max_memory_occupancy = 0 ∧
    raw.construct.min_memory_occupancy = 1 ∧
    raw.construct.avg_memory_occupancy = 0 ∧
    raw.construct.sum_memory_occupancy = 0 ∧
    raw.construct.cnt_memory_occupancy = 0 ∧
    raw.construct.max_ebs_occupancy = 0 ∧
    raw.construct.min_ebs_occupancy = 1 ∧
    raw.construct.avg_ebs_occupancy = 0 ∧
    raw.construct.sum_ebs_occupancy = 0 ∧
    raw.construct.cnt_ebs_occupancy = 0 ∧
    raw.construct.min_occupancy_memory_public_ip = Address.empty ∧
    raw.construct.min_occupancy_memory_private_ip = Address.empty ∧
    raw.construct.sum_latency = 0 ∧
    raw.construct.cnt_latency = 0 ∧
    raw.construct.avg_latency = 0 ∧
    raw.construct.total_throughput = 0) :=
  ⟨⟨rfl, rfl, rfl, rfl, rfl, rfl, rfl, rfl, rfl, rfl, rfl, rfl, rfl, rfl, rfl, rfl, rfl, rfl, rfl, rfl, rfl, rfl, rfl, rfl, rfl, rfl, rfl, rfl, rfl, rfl, rfl⟩,
    ⟨rfl, rfl, rfl, rfl, rfl, rfl, rfl, rfl, rfl, rfl, rfl, rfl, rfl, rfl, rfl, rfl, rfl, rfl, rfl, rfl, rfl, rfl, rfl, rfl, rfl, rfl, rfl, rfl, rfl, rfl, rfl⟩⟩

/-! ### Guards of the divisions -/

omit [FloorRing R] in
theorem guardedQuotient_eq (a : R) (n : ℕ) :
    guardedQuotient a n = some (if n ≠ 0 then a / (n : R) else 0) := by
  unfold guardedQuotient
  by_cases hn : n = 0
  · rw [if_neg (not_not.mpr hn), if_neg (not_not.mpr hn)]
  · rw [if_pos hn, if_pos hn, checkedDiv, if_neg (Nat.cast_ne_zero.mpr hn)]

omit [FloorRing R] in
theorem guardedQuotientNat_eq (t n : ℕ) :
    (guardedQuotientNat t n : Option R) = some (if n ≠ 0 then ((t / n : ℕ) : R) else 0) := by
  unfold guardedQuotientNat
  by_cases hn : n = 0
  · rw [if_neg (not_not.mpr hn), if_neg (not_not.mpr hn)]
  · rw [if_pos hn, if_pos hn, checkedDivNat, if_neg hn]
    rfl

theorem guardedRequiredNode_eq (t : ℕ) (c : R) :
    guardedRequiredNode t c =
      some (if c ≠ 0 then doubleToUnsigned ⌈requiredNodeQuotient t c⌉ else 0) := by
  unfold guardedRequiredNode
  by_cases hc : c = 0
  · rw [if_neg (not_not.mpr hc), if_neg (not_not.mpr hc)]
  · rw [if_pos hc, if_pos hc, checkedDiv, if_neg (rounded_divisor_ne_zero hc)]
    rfl

theorem aggregateChecked_eq (sqrt : R → R) (acc ss : SummaryStats R) :
    aggregateChecked sqrt acc ss = some (aggregate sqrt acc ss) := by
  unfold aggregateChecked
  simp only [guardedQuotient_eq, guardedQuotientNat_eq, guardedRequiredNode_eq,
    Option.some_bind]
  rfl

theorem checkedDiv_sample :
    checkedDiv (1 : ℚ) 0 = none ∧ checkedDivNat 1 0 = none ∧ checkedDiv (6 : ℚ) 3 = some 2 := by
  refine ⟨?_, ?_, ?_⟩
  · simp [checkedDiv]
  · simp [checkedDivNat]
  · norm_num [checkedDiv]

/-- C11: `aggregate` never executes a division with a zero divisor (the body with
checked divisions always returns, and returns the same object), and each field
computed from a quotient is `0` when its divisor is zero: `key_access_mean` when
the combined `key_access_cnt` is `0`, the two average consumption percentages
when the combined `total_memory_count` / `total_ebs_count` is `0`, the two
required node counts when the operand's capacity is `0`, the two average
occupancies when the combined occupancy count is `0`, and `avg_latency` when the
combined `cnt_latency` is `0`. -/
theorem aggregate_division_guards (sqrt : R → R) (acc ss : SummaryStats R) :
    aggregateChecked sqrt acc ss = some (aggregate sqrt acc ss) ∧
    ((aggregate sqrt acc ss).key_access_cnt = 0 → (aggregate sqrt acc ss).key_access_mean = 0) ∧
    ((aggregate sqrt acc ss).total_memory_count = 0 →
      (aggregate sqrt acc ss).avg_memory_consumption_percentage = 0) ∧
    ((aggregate sqrt acc ss).total_ebs_count = 0 →
      (aggregate sqrt acc ss).avg_ebs_consumption_percentage = 0) ∧
    (ss.memory_node_capacity = 0 → (aggregate sqrt acc ss).required_memory_node = 0) ∧
    (ss.ebs_node_capacity = 0 → (aggregate sqrt acc ss).required_ebs_node = 0) ∧
    ((aggregate sqrt acc ss).cnt_memory_occupancy = 0 →
      (aggregate sqrt acc ss).avg_memory_occupancy = 0) ∧
    ((aggregate sqrt acc ss).cnt_ebs_occupancy = 0 →
      (aggregate sqrt acc ss).avg_ebs_occupancy = 0) ∧
    ((aggregate sqrt acc ss).cnt_latency = 0 → (aggregate sqrt acc ss).avg_latency = 0) := by
  refine ⟨aggregateChecked_eq sqrt acc ss, ?_, ?_, ?_, ?_, ?_, ?_, ?_, ?_⟩
  · intro h
    exact if_neg (not_not.mpr h)
  · intro h
    exact if_neg (not_not.mpr h)
  · intro h
    exact if_neg (not_not.mpr h)
  · intro h
    rw [required_memory_node_eq, if_neg (not_not.mpr h)]
  · intro h
    rw [required_ebs_node_eq, if_neg (not_not.mpr h)]
  · intro h
    exact if_neg (not_not.mpr h)
  · intro h
    exact if_neg (not_not.mpr h)
  · intro h
    exact if_neg (not_not.mpr h)

/-- C11 at a concrete step: two snapshots without key accesses combine to count
`0`, and the mean is `0`. -/
theorem aggregate_division_guards_example :
    (aggregate Rat.sqrt blank tinyMemoryNode).key_access_cnt = 0 ∧
    (aggregate Rat.sqrt blank tinyMemoryNode).key_access_mean = 0 :=
  have h : (aggregate Rat.sqrt blank tinyMemoryNode).key_access_cnt = 0 := by
    norm_num [aggregate, blank, tinyMemoryNode, addUnsigned, kUnsignedRange]
  ⟨h, (aggregate_division_guards Rat.sqrt blank tinyMemoryNode).2.1 h⟩

/-! ### Additive fields -/

/-- C12 (as amended): after `aggregate` each of the six per-tier consumption
totals is the sum of the accumulator's previous value and the operand's value
reduced modulo the width of its unsigned type (`2^32` for the four count and
access totals, `2^64` for the two byte totals); it equals the plain sum whenever
that sum is below the width. -/
theorem aggregate_totals (sqrt : R → R) (acc ss : SummaryStats R) :
    ((aggregate sqrt acc ss).total_memory_count = (acc.total_memory_count + ss.total_memory_count) % 2 ^ 32 ∧
      (acc.total_memory_count + ss.total_memory_count < 2 ^ 32 →
        (aggregate sqrt acc ss).total_memory_count = acc.total_memory_count + ss.total_memory_count)) ∧
    ((aggregate sqrt acc ss).total_memory_access = (acc.total_memory_access + ss.total_memory_access) % 2 ^ 32 ∧
      (acc.total_memory_access + ss.total_memory_access < 2 ^ 32 →
        (aggregate sqrt acc ss).total_memory_access = acc.total_memory_access + ss.total_memory_access)) ∧
    ((aggregate sqrt acc ss).total_ebs_count = (acc.total_ebs_count + ss.total_ebs_count) % 2 ^ 32 ∧
      (acc.total_ebs_count + ss.total_ebs_count < 2 ^ 32 →
        (aggregate sqrt acc ss).total_ebs_count = acc.total_ebs_count + ss.total_ebs_count)) ∧
    ((aggregate sqrt acc ss).total_ebs_access = (acc.total_ebs_access + ss.total_ebs_access) % 2 ^ 32 ∧
      (acc.total_ebs_access + ss.total_ebs_access < 2 ^ 32 →
        (aggregate sqrt acc ss).total_ebs_access = acc.total_ebs_access + ss.total_ebs_access)) ∧
    ((aggregate sqrt acc ss).total_memory_consumption = (acc.total_memory_consumption + ss.total_memory_consumption) % 2 ^ 64 ∧
      (acc.total_memory_consumption + ss.total_memory_consumption < 2 ^ 64 →
        (aggregate sqrt acc ss).total_memory_consumption = acc.total_memory_consumption + ss.total_memory_consumption)) ∧
    ((aggregate sqrt acc ss).total_ebs_consumption = (acc.total_ebs_consumption + ss.total_ebs_consumption) % 2 ^ 64 ∧
      (acc.total_ebs_consumption + ss.total_ebs_consumption < 2 ^ 64 →
        (aggregate sqrt acc ss).total_ebs_consumption = acc.total_ebs_consumption + ss.total_ebs_consumption)) :=
  ⟨⟨rfl, fun h => addUnsigned_of_lt h⟩, ⟨rfl, fun h => addUnsigned_of_lt h⟩,
    ⟨rfl, fun h => addUnsigned_of_lt h⟩, ⟨rfl, fun h => addUnsigned_of_lt h⟩,
    ⟨rfl, fun h => addULongLong_of_lt h⟩, ⟨rfl, fun h => addULongLong_of_lt h⟩⟩

/-- C12 at a concrete step: 3 memory keys of 700 bytes added to 1 key of 8 bytes
give 4 keys. -/
theorem aggregate_totals_example :
    memoryCountOne.total_memory_count + storageNode.total_memory_count < 2 ^ 32 ∧
    (aggregate Rat.sqrt memoryCountOne storageNode).total_memory_count =
      memoryCountOne.total_memory_count + storageNode.total_memory_count ∧
    memoryCountOne.total_memory_count + storageNode.total_memory_count = 4 :=
  have h : memoryCountOne.total_memory_count + storageNode.total_memory_count < 2 ^ 32 := by
    norm_num [memoryCountOne, storageNode]
  ⟨h, (aggregate_totals Rat.sqrt memoryCountOne storageNode).1.2 h, rfl⟩

/-- C12 fails as stated: memory key counts `2^32 - 1` and `1` (both values of the
unsigned field) aggregate to `0`, not to their sum `2^32`. -/
theorem aggregate_totals_wrap :
    memoryCountAtMax.InRange ∧ memoryCountOne.InRange ∧
    (aggregate Rat.sqrt memoryCountAtMax memoryCountOne).total_memory_count = 0 ∧
    (aggregate Rat.sqrt memoryCountAtMax memoryCountOne).total_memory_count ≠
      memoryCountAtMax.total_memory_count + memoryCountOne.total_memory_count := by
  refine ⟨?_, ?_, ?_, ?_⟩ <;>
    norm_num [aggregate, InRange, memoryCountAtMax, memoryCountOne, blank, addUnsigned,
      kUnsignedRange, kULongLongRange]

/-! ### Consumption percentages -/

/-- What `aggregate` stores in the consumption percentage fields: the peak is the
larger of the two peaks; the average is the truncated integer quotient of the
combined byte total by the combined key count (both unsigned integers), or `0`
when that count is `0`. -/
theorem aggregate_consumption_percentage (sqrt : R → R) (acc ss : SummaryStats R) :
    (aggregate sqrt acc ss).max_memory_consumption_percentage =
      max acc.max_memory_consumption_percentage ss.max_memory_consumption_percentage ∧
    (aggregate sqrt acc ss).max_ebs_consumption_percentage =
      max acc.max_ebs_consumption_percentage ss.max_ebs_consumption_percentage ∧
    (aggregate sqrt acc ss).avg_memory_consumption_percentage =
      (if (aggregate sqrt acc ss).total_memory_count ≠ 0 then
        (((aggregate sqrt acc ss).total_memory_consumption /
          (aggregate sqrt acc ss).total_memory_count : ℕ) : R)
      else 0) ∧
    (aggregate sqrt acc ss).avg_ebs_consumption_percentage =
      (if (aggregate sqrt acc ss).total_ebs_count ≠ 0 then
        (((aggregate sqrt acc ss).total_ebs_consumption /
          (aggregate sqrt acc ss).total_ebs_count : ℕ) : R)
      else 0) :=
  ⟨rfl, rfl, rfl, rfl⟩

/-- C13, the code at a concrete input: a node at peak 0.8 holding one key of 2
bytes and a node at peak 0.5 holding one key of 1 byte.  The aggregated peak is
`0.8`, above the threshold `0.6`, as the claim says.  The combined byte total is
3 and the combined key count 2, so the claim's average is `3/2`; the code stores
`1`, the truncated quotient of the two unsigned integers. -/
theorem aggregate_avg_consumption_truncates :
    peakNode.InRange ∧ calmNode.InRange ∧
    (aggregate Rat.sqrt peakNode calmNode).max_memory_consumption_percentage = 4 / 5 ∧
    kMaxMemoryNodeConsumption ℚ <
      (aggregate Rat.sqrt peakNode calmNode).max_memory_consumption_percentage ∧
    (aggregate Rat.sqrt peakNode calmNode).total_memory_consumption = 3 ∧
    (aggregate Rat.sqrt peakNode calmNode).total_memory_count = 2 ∧
    (aggregate Rat.sqrt peakNode calmNode).avg_memory_consumption_percentage = 1 ∧
    (aggregate Rat.sqrt peakNode calmNode).avg_memory_consumption_percentage ≠
      ((aggregate Rat.sqrt peakNode calmNode).total_memory_consumption : ℚ) /
        ((aggregate Rat.sqrt peakNode calmNode).total_memory_count : ℚ) := by
  have hmax : (aggregate Rat.sqrt peakNode calmNode).max_memory_consumption_percentage
      = 4 / 5 := by
    norm_num [aggregate, peakNode, calmNode, blank]
  have ht : (aggregate Rat.sqrt peakNode calmNode).total_memory_consumption = 3 := by
    norm_num [aggregate, peakNode, calmNode, blank, addULongLong, kULongLongRange]
  have hc : (aggregate Rat.sqrt peakNode calmNode).total_memory_count = 2 := by
    norm_num [aggregate, peakNode, calmNode, blank, addUnsigned, kUnsignedRange]
  have havg : (aggregate Rat.sqrt peakNode calmNode).avg_memory_consumption_percentage
      = 1 := by
    rw [(aggregate_consumption_percentage Rat.sqrt peakNode calmNode).2.2.1, ht, hc]
    norm_num
  refine ⟨?_, ?_, hmax, ?_, ht, hc, havg, ?_⟩
  · norm_num [InRange, peakNode, blank, kUnsignedRange, kULongLongRange]
  · norm_num [InRange, calmNode, blank, kUnsignedRange, kULongLongRange]
  · rw [hmax]; norm_num [kMaxMemoryNodeConsumption]
  · rw [havg, ht, hc]; norm_num

/-! ### Standard deviation -/

/-- C14: after `aggregate`, `key_access_std` is `sqrt(std_a^2 + std_b^2)`, for
whatever function the library's `sqrt` is, and in particular over the real
numbers with the real square root; the access counts and means of the two inputs
do not enter: replacing them by any other values leaves `key_access_std` the
same. -/
theorem aggregate_key_access_std (sqrt : R → R) (acc ss : SummaryStats R) :
    (aggregate sqrt acc ss).key_access_std =
      sqrt (acc.key_access_std ^ 2 + ss.key_access_std ^ 2) ∧
    (∀ (cnt_a cnt_b : ℕ) (mean_a mean_b : R),
      (aggregate sqrt { acc with key_access_cnt := cnt_a, key_access_mean := mean_a }
        { ss with key_access_cnt := cnt_b, key_access_mean := mean_b }).key_access_std =
        (aggregate sqrt acc ss).key_access_std) ∧
    (∀ a b : SummaryStats ℝ,
      (aggregate Real.sqrt a b).key_access_std =
        Real.sqrt (a.key_access_std ^ 2 + b.key_access_std ^ 2)) := by
  refine ⟨?_, fun _ _ _ _ => rfl, ?_⟩
  · show sqrt (acc.key_access_std * acc.key_access_std +
      ss.key_access_std * ss.key_access_std) = _
    rw [sq, sq]
  · intro a b
    show Real.sqrt (a.key_access_std * a.key_access_std +
      b.key_access_std * b.key_access_std) = _
    rw [sq, sq]

/-! ### Occupancy, latency and throughput -/

/-- C15 (as amended): for each tier, after `aggregate` the maximum occupancy is
the larger and the minimum occupancy the smaller of the two inputs' values, the
occupancy sum is the sum of the inputs' sums, the occupancy count is the sum of
the inputs' counts modulo `2^32` (the plain sum whenever that is below `2^32`),
and the average occupancy is the combined sum divided by the combined count
field when that count is nonzero and `0` otherwise. -/
theorem aggregate_occupancy (sqrt : R → R) (acc ss : SummaryStats R) :
    (aggregate sqrt acc ss).max_memory_occupancy =
      max acc.max_memory_occupancy ss.max_memory_occupancy ∧
    (aggregate sqrt acc ss).min_memory_occupancy =
      min acc.min_memory_occupancy ss.min_memory_occupancy ∧
    (aggregate sqrt acc ss).sum_memory_occupancy =
      acc.sum_memory_occupancy + ss.sum_memory_occupancy ∧
    (aggregate sqrt acc ss).cnt_memory_occupancy =
      (acc.cnt_memory_occupancy + ss.cnt_memory_occupancy) % 2 ^ 32 ∧
    (acc.cnt_memory_occupancy + ss.cnt_memory_occupancy < 2 ^ 32 →
      (aggregate sqrt acc ss).cnt_memory_occupancy =
        acc.cnt_memory_occupancy + ss.cnt_memory_occupancy) ∧
    (aggregate sqrt acc ss).avg_memory_occupancy =
      (if (aggregate sqrt acc ss).cnt_memory_occupancy ≠ 0 then
        (aggregate sqrt acc ss).sum_memory_occupancy /
          ((aggregate sqrt acc ss).cnt_memory_occupancy : R)
      else 0) ∧
    (aggregate sqrt acc ss).max_ebs_occupancy =
      max acc.max_ebs_occupancy ss.max_ebs_occupancy ∧
    (aggregate sqrt acc ss).min_ebs_occupancy =
      min acc.min_ebs_occupancy ss.min_ebs_occupancy ∧
    (aggregate sqrt acc ss).sum_ebs_occupancy =
      acc.sum_ebs_occupancy + ss.sum_ebs_occupancy ∧
    (aggregate sqrt acc ss).cnt_ebs_occupancy =
      (acc.cnt_ebs_occupancy + ss.cnt_ebs_occupancy) % 2 ^ 32 ∧
    (acc.cnt_ebs_occupancy + ss.cnt_ebs_occupancy < 2 ^ 32 →
      (aggregate sqrt acc ss).cnt_ebs_occupancy =
        acc.cnt_ebs_occupancy + ss.cnt_ebs_occupancy) ∧
    (aggregate sqrt acc ss).avg_ebs_occupancy =
      (if (aggregate sqrt acc ss).cnt_ebs_occupancy ≠ 0 then
        (aggregate sqrt acc ss).sum_ebs_occupancy /
          ((aggregate sqrt acc ss).cnt_ebs_occupancy : R)
      else 0) :=
  ⟨rfl, rfl, rfl, rfl, fun h => addUnsigned_of_lt h, rfl,
    rfl, rfl, rfl, rfl, fun h => addUnsigned_of_lt h, rfl⟩

/-- C15 at a concrete step: one memory occupancy sample added to four gives five
samples. -/
theorem aggregate_occupancy_example :
    busyNode.cnt_memory_occupancy + sampleOne.cnt_memory_occupancy < 2 ^ 32 ∧
    (aggregate Rat.sqrt busyNode sampleOne).cnt_memory_occupancy =
      busyNode.cnt_memory_occupancy + sampleOne.cnt_memory_occupancy ∧
    busyNode.cnt_memory_occupancy + sampleOne.cnt_memory_occupancy = 5 :=
  have h : busyNode.cnt_memory_occupancy + sampleOne.cnt_memory_occupancy < 2 ^ 32 := by
    norm_num [busyNode, sampleOne]
  ⟨h, (aggregate_occupancy Rat.sqrt busyNode sampleOne).2.2.2.2.1 h, rfl⟩

/-- C15 fails as stated: memory occupancy counts `2^32 - 1` and `1` aggregate to
the count `0`, not to their sum, and the average occupancy is `0` although the
sum of the occupancy sums is `3/2`. -/
theorem aggregate_occupancy_wrap :
    samplesAtMax.InRange ∧ sampleOne.InRange ∧
    (aggregate Rat.sqrt samplesAtMax sampleOne).cnt_memory_occupancy = 0 ∧
    (aggregate Rat.sqrt samplesAtMax sampleOne).cnt_memory_occupancy ≠
      samplesAtMax.cnt_memory_occupancy + sampleOne.cnt_memory_occupancy ∧
    (aggregate Rat.sqrt samplesAtMax sampleOne).sum_memory_occupancy = 3 / 2 ∧
    (aggregate Rat.sqrt samplesAtMax sampleOne).avg_memory_occupancy = 0 := by
  refine ⟨?_, ?_, ?_, ?_, ?_, ?_⟩ <;>
    norm_num [aggregate, InRange, samplesAtMax, sampleOne, blank, addUnsigned, kUnsignedRange,
      kULongLongRange]

/-- C16 (as amended): after `aggregate`, `sum_latency` and `total_throughput` are
the sums of the accumulator's previous value and the operand's value,
`cnt_latency` is that sum modulo `2^32` (the plain sum whenever it is below
`2^32`), and `avg_latency` is the combined `sum_latency` divided by the combined
`cnt_latency` field when that count is nonzero and `0` otherwise. -/
theorem aggregate_latency (sqrt : R → R) (acc ss : SummaryStats R) :
    (aggregate sqrt acc ss).sum_latency = acc.sum_latency + ss.sum_latency ∧
    (aggregate sqrt acc ss).total_throughput = acc.total_throughput + ss.total_throughput ∧
    (aggregate sqrt acc ss).cnt_latency = (acc.cnt_latency + ss.cnt_latency) % 2 ^ 32 ∧
    (acc.cnt_latency + ss.cnt_latency < 2 ^ 32 →
      (aggregate sqrt acc ss).cnt_latency = acc.cnt_latency + ss.cnt_latency) ∧
    (aggregate sqrt acc ss).avg_latency =
      (if (aggregate sqrt acc ss).cnt_latency ≠ 0 then
        (aggregate sqrt acc ss).sum_latency / ((aggregate sqrt acc ss).cnt_latency : R)
      else 0) :=
  ⟨rfl, rfl, rfl, fun h => addUnsigned_of_lt h, rfl⟩

/-- C16 at a concrete step: one latency sample added to three gives four. -/
theorem aggregate_latency_example :
    busyNode.cnt_latency + sampleOne.cnt_latency < 2 ^ 32 ∧
    (aggregate Rat.sqrt busyNode sampleOne).cnt_latency =
      busyNode.cnt_latency + sampleOne.cnt_latency ∧
    busyNode.cnt_latency + sampleOne.cnt_latency = 4 :=
  have h : busyNode.cnt_latency + sampleOne.cnt_latency < 2 ^ 32 := by
    norm_num [busyNode, sampleOne]
  ⟨h, (aggregate_latency Rat.sqrt busyNode sampleOne).2.2.2.1 h, rfl⟩

/-- C16 fails as stated: latency counts `2^32 - 1` and `1` aggregate to the count
`0`, not to their sum, and `avg_latency` is `0` although the combined
`sum_latency` is `4`. -/
theorem aggregate_latency_wrap :
    samplesAtMax.InRange ∧ sampleOne.InRange ∧
    (aggregate Rat.sqrt samplesAtMax sampleOne).cnt_latency = 0 ∧
    (aggregate Rat.sqrt samplesAtMax sampleOne).cnt_latency ≠
      samplesAtMax.cnt_latency + sampleOne.cnt_latency ∧
    (aggregate Rat.sqrt samplesAtMax sampleOne).sum_latency = 4 ∧
    (aggregate Rat.sqrt samplesAtMax sampleOne).avg_latency = 0 := by
  refine ⟨?_, ?_, ?_, ?_, ?_, ?_⟩ <;>
    norm_num [aggregate, InRange, samplesAtMax, sampleOne, blank, addUnsigned, kUnsignedRange,
      kULongLongRange]

/-! ### Associativity and commutativity -/

omit [LinearOrderedField R] [FloorRing R] in
/-- Two snapshots with the same value in every field are equal. -/
theorem eq_of_fields (s t : SummaryStats R)
    (h0 : s.key_access_cnt = t.key_access_cnt)
    (h1 : s.key_access_mean = t.key_access_mean)
    (h2 : s.key_access_std = t.key_access_std)
    (h3 : s.total_memory_count = t.total_memory_count)
    (h4 : s.total_memory_access = t.total_memory_access)
    (h5 : s.total_ebs_count = t.total_ebs_count)
    (h6 : s.total_ebs_access = t.total_ebs_access)
    (h7 : s.total_memory_consumption = t.total_memory_consumption)
    (h8 : s.total_ebs_consumption = t.total_ebs_consumption)
    (h9 : s.max_memory_consumption_percentage = t.max_memory_consumption_percentage)
    (h10 : s.max_ebs_consumption_percentage = t.max_ebs_consumption_percentage)
    (h11 : s.avg_memory_consumption_percentage = t.avg_memory_consumption_percentage)
    (h12 : s.avg_ebs_consumption_percentage = t.avg_ebs_consumption_percentage)
    (h13 : s.memory_node_capacity = t.memory_node_capacity)
    (h14 : s.ebs_node_capacity = t.ebs_node_capacity)
    (h15 : s.required_memory_node = t.required_memory_node)
    (h16 : s.required_ebs_node = t.required_ebs_node)
    (h17 : s.max_memory_occupancy = t.max_memory_occupancy)
    (h18 : s.min_memory_occupancy = t.min_memory_occupancy)
    (h19 : s.avg_memory_occupancy = t.avg_memory_occupancy)
    (h20 : s.sum_memory_occupancy = t.sum_memory_occupancy)
    (h21 : s.cnt_memory_occupancy = t.cnt_memory_occupancy)
    (h22 : s.max_ebs_occupancy = t.max_ebs_occupancy)
    (h23 : s.min_ebs_occupancy = t.min_ebs_occupancy)
    (h24 : s.avg_ebs_occupancy = t.avg_ebs_occupancy)
    (h25 : s.sum_ebs_occupancy = t.sum_ebs_occupancy)
    (h26 : s.cnt_ebs_occupancy = t.cnt_ebs_occupancy)
    (h27 : s.min_occupancy_memory_public_ip = t.min_occupancy_memory_public_ip)
    (h28 : s.min_occupancy_memory_private_ip = t.min_occupancy_memory_private_ip)
    (h29 : s.sum_latency = t.sum_latency)
    (h30 : s.cnt_latency = t.cnt_latency)
    (h31 : s.avg_latency = t.avg_latency)
    (h32 : s.total_throughput = t.total_throughput) :
    s = t := by
  cases s
  cases t
  simp only [mk.injEq]
  exact ⟨h0, h1, h2, h3, h4, h5, h6, h7, h8, h9, h10, h11, h12, h13, h14, h15, h16, h17, h18, h19, h20, h21, h22, h23, h24, h25, h26, h27, h28, h29, h30, h31, h32⟩

theorem addUnsigned_assoc (a b c : ℕ) :
    addUnsigned (addUnsigned a b) c = addUnsigned a (addUnsigned b c) := by
  unfold addUnsigned kUnsignedRange
  omega

theorem addULongLong_assoc (a b c : ℕ) :
    addULongLong (addULongLong a b) c = addULongLong a (addULongLong b c) := by
  unfold addULongLong kULongLongRange
  omega

theorem addUnsigned_comm (a b : ℕ) : addUnsigned a b = addUnsigned b a := by
  unfold addUnsigned
  rw [Nat.add_comm]

theorem addULongLong_comm (a b : ℕ) : addULongLong a b = addULongLong b a := by
  unfold addULongLong
  rw [Nat.add_comm]

omit [FloorRing R] in
/-- The choice of the address that goes with the minimum does not depend on how
three candidates are bracketed. -/
theorem choose_min_assoc {α : Type} (x y z : R) (p q r : α) :
    (if z < min x y then r else if y < x then q else p) =
      (if min y z < x then (if z < y then r else q) else p) := by
  rcases lt_or_le y x with hyx | hxy
  · rw [min_eq_right hyx.le, if_pos hyx]
    rcases lt_or_le z y with hzy | hyz
    · rw [if_pos hzy, min_eq_right hzy.le, if_pos (lt_trans hzy hyx)]
    · rw [if_neg (not_lt.mpr hyz), min_eq_left hyz, if_pos hyx]
  · rw [min_eq_left hxy, if_neg (not_lt.mpr hxy)]
    rcases lt_or_le z x with hzx | hxz
    · have hzy : z < y := lt_of_lt_of_le hzx hxy
      rw [if_pos hzx, min_eq_right hzy.le, if_pos hzx, if_pos hzy]
    · rw [if_neg (not_lt.mpr hxz), if_neg (not_lt.mpr (le_min hxy hxz))]

/-- Without wrap-around of the access count, the product of the aggregated count
and the aggregated mean is the sum of the two inputs' products. -/
theorem aggregate_weighted_total (sqrt : R → R) (a b : SummaryStats R)
    (h : a.key_access_cnt + b.key_access_cnt < 2 ^ 32) :
    ((aggregate sqrt a b).key_access_cnt : R) * (aggregate sqrt a b).key_access_mean =
      (a.key_access_cnt : R) * a.key_access_mean + (b.key_access_cnt : R) * b.key_access_mean := by
  have hsum : addUnsigned a.key_access_cnt b.key_access_cnt =
      a.key_access_cnt + b.key_access_cnt := addUnsigned_of_lt h
  show ((addUnsigned a.key_access_cnt b.key_access_cnt : ℕ) : R) *
    (if addUnsigned a.key_access_cnt b.key_access_cnt ≠ 0 then
      ((a.key_access_cnt : R) * a.key_access_mean + (b.key_access_cnt : R) * b.key_access_mean) /
        ((addUnsigned a.key_access_cnt b.key_access_cnt : ℕ) : R)
    else 0) = _
  rw [hsum]
  by_cases h0 : a.key_access_cnt + b.key_access_cnt = 0
  · have ha : a.key_access_cnt = 0 := by omega
    have hb : b.key_access_cnt = 0 := by omega
    rw [if_neg (not_not.mpr h0), ha, hb]
    simp
  · rw [if_pos h0]
    have hne : ((a.key_access_cnt + b.key_access_cnt : ℕ) : R) ≠ 0 := Nat.cast_ne_zero.mpr h0
    exact mul_div_cancel₀ _ hne

/-- Associativity of `aggregate` for a given `sqrt`, provided the three access
counts add up below `2^32` and `sqrt` squares back to its argument at the two
sums of squares that occur. -/
theorem aggregate_assoc_of (sqrt : R → R) (a b c : SummaryStats R)
    (hcnt : a.key_access_cnt + b.key_access_cnt + c.key_access_cnt < 2 ^ 32)
    (hab : sqrt (a.key_access_std * a.key_access_std + b.key_access_std * b.key_access_std) *
        sqrt (a.key_access_std * a.key_access_std + b.key_access_std * b.key_access_std) =
      a.key_access_std * a.key_access_std + b.key_access_std * b.key_access_std)
    (hbc : sqrt (b.key_access_std * b.key_access_std + c.key_access_std * c.key_access_std) *
        sqrt (b.key_access_std * b.key_access_std + c.key_access_std * c.key_access_std) =
      b.key_access_std * b.key_access_std + c.key_access_std * c.key_access_std) :
    aggregate sqrt (aggregate sqrt a b) c = aggregate sqrt a (aggregate sqrt b c) := by
  have hkc : (aggregate sqrt (aggregate sqrt a b) c).key_access_cnt =
      (aggregate sqrt a (aggregate sqrt b c)).key_access_cnt := addUnsigned_assoc _ _ _
  have hmc : (aggregate sqrt (aggregate sqrt a b) c).total_memory_count =
      (aggregate sqrt a (aggregate sqrt b c)).total_memory_count := addUnsigned_assoc _ _ _
  have hec : (aggregate sqrt (aggregate sqrt a b) c).total_ebs_count =
      (aggregate sqrt a (aggregate sqrt b c)).total_ebs_count := addUnsigned_assoc _ _ _
  have hmt : (aggregate sqrt (aggregate sqrt a b) c).total_memory_consumption =
      (aggregate sqrt a (aggregate sqrt b c)).total_memory_consumption :=
    addULongLong_assoc _ _ _
  have het : (aggregate sqrt (aggregate sqrt a b) c).total_ebs_consumption =
      (aggregate sqrt a (aggregate sqrt b c)).total_ebs_consumption :=
    addULongLong_assoc _ _ _
  have hmo : (aggregate sqrt (aggregate sqrt a b) c).cnt_memory_occupancy =
      (aggregate sqrt a (aggregate sqrt b c)).cnt_memory_occupancy := addUnsigned_assoc _ _ _
  have heo : (aggregate sqrt (aggregate sqrt a b) c).cnt_ebs_occupancy =
      (aggregate sqrt a (aggregate sqrt b c)).cnt_ebs_occupancy := addUnsigned_assoc _ _ _
  have hlc : (aggregate sqrt (aggregate sqrt a b) c).cnt_latency =
      (aggregate sqrt a (aggregate sqrt b c)).cnt_latency := addUnsigned_assoc _ _ _
  have hms : (aggregate sqrt (aggregate sqrt a b) c).sum_memory_occupancy =
      (aggregate sqrt a (aggregate sqrt b c)).sum_memory_occupancy := add_assoc _ _ _
  have hes : (aggregate sqrt (aggregate sqrt a b) c).sum_ebs_occupancy =
      (aggregate sqrt a (aggregate sqrt b c)).sum_ebs_occupancy := add_assoc _ _ _
  have hls : (aggregate sqrt (aggregate sqrt a b) c).sum_latency =
      (aggregate sqrt a (aggregate sqrt b c)).sum_latency := add_assoc _ _ _
  have hab_lt : a.key_access_cnt + b.key_access_cnt < 2 ^ 32 := by omega
  have hbc_lt : b.key_access_cnt + c.key_access_cnt < 2 ^ 32 := by omega
  have wab := aggregate_weighted_total sqrt a b hab_lt
  have wbc := aggregate_weighted_total sqrt b c hbc_lt
  apply eq_of_fields
  · exact hkc
  · -- key_access_mean
    show (if (aggregate sqrt (aggregate sqrt a b) c).key_access_cnt ≠ 0 then
        (((aggregate sqrt a b).key_access_cnt : R) * (aggregate sqrt a b).key_access_mean +
          (c.key_access_cnt : R) * c.key_access_mean) /
          ((aggregate sqrt (aggregate sqrt a b) c).key_access_cnt : R)
      else 0) =
      (if (aggregate sqrt a (aggregate sqrt b c)).key_access_cnt ≠ 0 then
        ((a.key_access_cnt : R) * a.key_access_mean +
          ((aggregate sqrt b c).key_access_cnt : R) * (aggregate sqrt b c).key_access_mean) /
          ((aggregate sqrt a (aggregate sqrt b c)).key_access_cnt : R)
      else 0)
    rw [wab, wbc, hkc, add_assoc]
  · -- key_access_std
    show sqrt (sqrt (a.key_access_std * a.key_access_std +
        b.key_access_std * b.key_access_std) *
        sqrt (a.key_access_std * a.key_access_std + b.key_access_std * b.key_access_std) +
        c.key_access_std * c.key_access_std) =
      sqrt (a.key_access_std * a.key_access_std +
        sqrt (b.key_access_std * b.key_access_std + c.key_access_std * c.key_access_std) *
        sqrt (b.key_access_std * b.key_access_std + c.key_access_std * c.key_access_std))
    rw [hab, hbc, add_assoc]
  · exact hmc
  · exact addUnsigned_assoc _ _ _
  · exact hec
  · exact addUnsigned_assoc _ _ _
  · exact hmt
  · exact het
  · exact max_assoc _ _ _
  · exact max_assoc _ _ _
  · rw [(aggregate_consumption_percentage sqrt (aggregate sqrt a b) c).2.2.1,
      (aggregate_consumption_percentage sqrt a (aggregate sqrt b c)).2.2.1, hmc, hmt]
  · rw [(aggregate_consumption_percentage sqrt (aggregate sqrt a b) c).2.2.2,
      (aggregate_consumption_percentage sqrt a (aggregate sqrt b c)).2.2.2, hec, het]
  · rfl
  · rfl
  · rw [required_memory_node_eq, required_memory_node_eq, hmt]
    rfl
  · rw [required_ebs_node_eq, required_ebs_node_eq, het]
    rfl
  · exact max_assoc _ _ _
  · exact min_assoc _ _ _
  · show (if (aggregate sqrt (aggregate sqrt a b) c).cnt_memory_occupancy ≠ 0 then
        (aggregate sqrt (aggregate sqrt a b) c).sum_memory_occupancy /
          ((aggregate sqrt (aggregate sqrt a b) c).cnt_memory_occupancy : R)
      else 0) = _
    rw [hmo, hms]
    rfl
  · exact hms
  · exact hmo
  · exact max_assoc _ _ _
  · exact min_assoc _ _ _
  · show (if (aggregate sqrt (aggregate sqrt a b) c).cnt_ebs_occupancy ≠ 0 then
        (aggregate sqrt (aggregate sqrt a b) c).sum_ebs_occupancy /
          ((aggregate sqrt (aggregate sqrt a b) c).cnt_ebs_occupancy : R)
      else 0) = _
    rw [heo, hes]
    rfl
  · exact hes
  · exact heo
  · exact choose_min_assoc a.min_memory_occupancy b.min_memory_occupancy c.min_memory_occupancy
      a.min_occupancy_memory_public_ip b.min_occupancy_memory_public_ip
      c.min_occupancy_memory_public_ip
  · exact choose_min_assoc a.min_memory_occupancy b.min_memory_occupancy c.min_memory_occupancy
      a.min_occupancy_memory_private_ip b.min_occupancy_memory_private_ip
      c.min_occupancy_memory_private_ip
  · exact hls
  · exact hlc
  · show (if (aggregate sqrt (aggregate sqrt a b) c).cnt_latency ≠ 0 then
        (aggregate sqrt (aggregate sqrt a b) c).sum_latency /
          ((aggregate sqrt (aggregate sqrt a b) c).cnt_latency : R)
      else 0) = _
    rw [hlc, hls]
    rfl
  · exact add_assoc _ _ _

/-- C17: over the real numbers with the real square root, `aggregate` is
associative as long as the three access counts add up below `2^32`: aggregating
`b` and then `c` into `a` gives the same snapshot, field by field, as aggregating
into `a` the result of aggregating `c` into `b`. -/
theorem aggregate_assoc (a b c : SummaryStats ℝ)
    (h : a.key_access_cnt + b.key_access_cnt + c.key_access_cnt < 2 ^ 32) :
    aggregate Real.sqrt (aggregate Real.sqrt a b) c =
      aggregate Real.sqrt a (aggregate Real.sqrt b c) :=
  aggregate_assoc_of Real.sqrt a b c h
    (Real.mul_self_sqrt (add_nonneg (mul_self_nonneg _) (mul_self_nonneg _)))
    (Real.mul_self_sqrt (add_nonneg (mul_self_nonneg _) (mul_self_nonneg _)))

/-- C17 at three concrete real-valued nodes with 4, 6 and 1 accesses. -/
theorem aggregate_assoc_example :
    realNodeA.key_access_cnt + realNodeB.key_access_cnt + realNodeC.key_access_cnt < 2 ^ 32 ∧
    aggregate Real.sqrt (aggregate Real.sqrt realNodeA realNodeB) realNodeC =
      aggregate Real.sqrt realNodeA (aggregate Real.sqrt realNodeB realNodeC) :=
  have h : realNodeA.key_access_cnt + realNodeB.key_access_cnt + realNodeC.key_access_cnt
      < 2 ^ 32 := by
    norm_num [realNodeA, realNodeB, realNodeC]
  ⟨h, aggregate_assoc realNodeA realNodeB realNodeC h⟩

/-- The associativity lemma run on rational nodes whose standard deviations 3, 4
and 0 make every square root exact. -/
theorem aggregate_assoc_rat_example :
    aggregate Rat.sqrt (aggregate Rat.sqrt stdThreeNode stdFourNode) idleNode =
      aggregate Rat.sqrt stdThreeNode (aggregate Rat.sqrt stdFourNode idleNode) := by
  apply aggregate_assoc_of
  · norm_num [stdThreeNode, stdFourNode, idleNode, blank]
  · norm_num [stdThreeNode, stdFourNode, blank, Rat.sqrt]
  · norm_num [stdFourNode, idleNode, blank, Rat.sqrt]

/-! ### Folding a list of snapshots: count and mean -/

/-- Folding `nodes` into an accumulator without wrap-around of the access count:
the count is the accumulator's plus the sum of the nodes' counts, the product
count times mean is the accumulator's plus the sum of the nodes' products, and a
zero count still goes with a zero mean. -/
theorem aggregateAll_key_access_from (sqrt : R → R) (nodes : List (SummaryStats R)) :
    ∀ acc : SummaryStats R,
      acc.key_access_cnt + (nodes.map fun s => s.key_access_cnt).sum < 2 ^ 32 →
      (aggregateAll sqrt acc nodes).key_access_cnt =
        acc.key_access_cnt + (nodes.map fun s => s.key_access_cnt).sum ∧
      ((aggregateAll sqrt acc nodes).key_access_cnt : R) *
          (aggregateAll sqrt acc nodes).key_access_mean =
        (acc.key_access_cnt : R) * acc.key_access_mean +
          (nodes.map fun s => (s.key_access_cnt : R) * s.key_access_mean).sum ∧
      ((acc.key_access_cnt = 0 → acc.key_access_mean = 0) →
        (aggregateAll sqrt acc nodes).key_access_cnt = 0 →
        (aggregateAll sqrt acc nodes).key_access_mean = 0) := by
  induction nodes with
  | nil =>
    intro acc _
    refine ⟨?_, ?_, ?_⟩
    · show acc.key_access_cnt = _
      simp
    · show (acc.key_access_cnt : R) * acc.key_access_mean = _
      simp
    · intro h0 hc
      exact h0 hc
  | cons x xs ih =>
    intro acc h
    rw [List.map_cons, List.sum_cons] at h
    have hstep : aggregateAll sqrt acc (x :: xs) = aggregateAll sqrt (aggregate sqrt acc x) xs :=
      rfl
    have hlt : acc.key_access_cnt + x.key_access_cnt < 2 ^ 32 := by omega
    have hcnt : (aggregate sqrt acc x).key_access_cnt = acc.key_access_cnt + x.key_access_cnt :=
      addUnsigned_of_lt hlt
    have hw := aggregate_weighted_total sqrt acc x hlt
    have hzero : (aggregate sqrt acc x).key_access_cnt = 0 →
        (aggregate sqrt acc x).key_access_mean = 0 := fun h0 => if_neg (not_not.mpr h0)
    obtain ⟨i1, i2, i3⟩ := ih (aggregate sqrt acc x) (by rw [hcnt]; omega)
    rw [hstep, List.map_cons, List.sum_cons, List.map_cons, List.sum_cons]
    refine ⟨?_, ?_, ?_⟩
    · rw [i1, hcnt]; omega
    · rw [i2, hw, add_assoc]
    · intro _ hc
      exact i3 hzero hc

/-- Folding into a cleared accumulator: the count is the sum of the counts and
the mean is the weighted mean, or `0` when the total count is `0`. -/
theorem aggregateAll_key_access_clear (sqrt : R → R) (raw : SummaryStats R)
    (nodes : List (SummaryStats R))
    (h : (nodes.map fun s => s.key_access_cnt).sum < 2 ^ 32) :
    (aggregateAll sqrt raw.clear nodes).key_access_cnt =
      (nodes.map fun s => s.key_access_cnt).sum ∧
    (aggregateAll sqrt raw.clear nodes).key_access_mean =
      (if (nodes.map fun s => s.key_access_cnt).sum ≠ 0 then
        (nodes.map fun s => (s.key_access_cnt : R) * s.key_access_mean).sum /
          (((nodes.map fun s => s.key_access_cnt).sum : ℕ) : R)
      else 0) := by
  have hc0 : (raw.clear).key_access_cnt = 0 := rfl
  have hm0 : (raw.clear).key_access_mean = 0 := rfl
  obtain ⟨i1, i2, i3⟩ := aggregateAll_key_access_from sqrt nodes raw.clear
    (by rw [hc0, Nat.zero_add]; exact h)
  rw [hc0, Nat.zero_add] at i1
  rw [hc0, hm0, Nat.cast_zero, zero_mul, zero_add] at i2
  refine ⟨i1, ?_⟩
  by_cases hz : (nodes.map fun s => s.key_access_cnt).sum = 0
  · rw [if_neg (not_not.mpr hz)]
    exact i3 (fun _ => hm0) (i1.trans hz)
  · rw [if_pos hz]
    have hne : ((((nodes.map fun s => s.key_access_cnt).sum : ℕ)) : R) ≠ 0 :=
      Nat.cast_ne_zero.mpr hz
    rw [i1] at i2
    rw [eq_div_iff hne, mul_comm]
    exact i2

omit [FloorRing R] in
/-- Snapshots that agree on the access count, and on the mean wherever the count
is nonzero, have the same total count and the same weighted sum. -/
theorem sums_eq_of_forall₂ (xs ys : List (SummaryStats R))
    (hrel : List.Forall₂ (fun s t : SummaryStats R =>
      s.key_access_cnt = t.key_access_cnt ∧
        (s.key_access_cnt ≠ 0 → s.key_access_mean = t.key_access_mean)) xs ys) :
    (xs.map fun s => s.key_access_cnt).sum = (ys.map fun s => s.key_access_cnt).sum ∧
    (xs.map fun s => (s.key_access_cnt : R) * s.key_access_mean).sum =
      (ys.map fun s => (s.key_access_cnt : R) * s.key_access_mean).sum := by
  induction hrel with
  | nil => exact ⟨rfl, rfl⟩
  | @cons s t _ _ hst _ ih =>
    obtain ⟨hc, hm⟩ := hst
    have hterm : (s.key_access_cnt : R) * s.key_access_mean =
        (t.key_access_cnt : R) * t.key_access_mean := by
      by_cases h0 : s.key_access_cnt = 0
      · rw [← hc, h0]; simp
      · rw [← hc, hm h0]
    simp only [List.map_cons, List.sum_cons]
    exact ⟨by rw [hc, ih.1], by rw [ih.2, hterm]⟩

/-- C18: fold a finite list of snapshots, left to right, into a cleared
accumulator, the total of the access counts being below `2^32`.  The resulting
`key_access_cnt` is the sum of the counts; the resulting `key_access_mean` is the
sum of `cnt_i * mean_i` divided by the sum of the counts when that is positive,
and `0` when it is `0`.  Any reordering of the list gives the same count and
mean, and so does any change of the means carried by zero-count snapshots. -/
theorem aggregateAll_key_access (sqrt : R → R) (raw : SummaryStats R)
    (nodes : List (SummaryStats R))
    (h : (nodes.map fun s => s.key_access_cnt).sum < 2 ^ 32) :
    (aggregateAll sqrt raw.clear nodes).key_access_cnt =
      (nodes.map fun s => s.key_access_cnt).sum ∧
    (0 < (nodes.map fun s => s.key_access_cnt).sum →
      (aggregateAll sqrt raw.clear nodes).key_access_mean =
        (nodes.map fun s => (s.key_access_cnt : R) * s.key_access_mean).sum /
          (((nodes.map fun s => s.key_access_cnt).sum : ℕ) : R)) ∧
    ((nodes.map fun s => s.key_access_cnt).sum = 0 →
      (aggregateAll sqrt raw.clear nodes).key_access_mean = 0) ∧
    (∀ reordered : List (SummaryStats R), reordered.Perm nodes →
      (aggregateAll sqrt raw.clear reordered).key_access_cnt =
        (aggregateAll sqrt raw.clear nodes).key_access_cnt ∧
      (aggregateAll sqrt raw.clear reordered).key_access_mean =
        (aggregateAll sqrt raw.clear nodes).key_access_mean) ∧
    (∀ changed : List (SummaryStats R),
      List.Forall₂ (fun s t : SummaryStats R =>
        s.key_access_cnt = t.key_access_cnt ∧
          (s.key_access_cnt ≠ 0 → s.key_access_mean = t.key_access_mean)) nodes changed →
      (aggregateAll sqrt raw.clear changed).key_access_cnt =
        (aggregateAll sqrt raw.clear nodes).key_access_cnt ∧
      (aggregateAll sqrt raw.clear changed).key_access_mean =
        (aggregateAll sqrt raw.clear nodes).key_access_mean) := by
  obtain ⟨hcnt, hmean⟩ := aggregateAll_key_access_clear sqrt raw nodes h
  refine ⟨hcnt, ?_, ?_, ?_, ?_⟩
  · intro hpos
    rw [hmean, if_pos (Nat.pos_iff_ne_zero.mp hpos)]
  · intro hz
    rw [hmean, if_neg (not_not.mpr hz)]
  · intro reordered hperm
    have e1 : (reordered.map fun s => s.key_access_cnt).sum =
        (nodes.map fun s => s.key_access_cnt).sum := (hperm.map _).sum_eq
    have e2 : (reordered.map fun s => (s.key_access_cnt : R) * s.key_access_mean).sum =
        (nodes.map fun s => (s.key_access_cnt : R) * s.key_access_mean).sum :=
      (hperm.map _).sum_eq
    obtain ⟨rcnt, rmean⟩ := aggregateAll_key_access_clear sqrt raw reordered (by rw [e1]; exact h)
    rw [rcnt, rmean, hcnt, hmean, e1, e2]
    exact ⟨rfl, rfl⟩
  · intro changed hrel
    obtain ⟨e1, e2⟩ := sums_eq_of_forall₂ nodes changed hrel
    obtain ⟨rcnt, rmean⟩ := aggregateAll_key_access_clear sqrt raw changed (by rw [← e1]; exact h)
    rw [rcnt, rmean, hcnt, hmean, e1, e2]
    exact ⟨rfl, rfl⟩

/-- C18 at a concrete list: nodes with (10 accesses, mean 5), (0 accesses, mean 9)
and (1 access, mean 1) fold to 11 accesses with mean `51/11`. -/
theorem aggregateAll_key_access_example :
    ([scenarioA_first, idleNode, countOne].map fun s => s.key_access_cnt).sum < 2 ^ 32 ∧
    (aggregateAll Rat.sqrt busyNode.clear [scenarioA_first, idleNode, countOne]).key_access_cnt =
      11 ∧
    (aggregateAll Rat.sqrt busyNode.clear [scenarioA_first, idleNode, countOne]).key_access_mean =
      51 / 11 := by
  have h : ([scenarioA_first, idleNode, countOne].map fun s => s.key_access_cnt).sum
      < 2 ^ 32 := by
    norm_num [scenarioA_first, idleNode, countOne, blank]
  obtain ⟨hcnt, hmean, -⟩ :=
    aggregateAll_key_access Rat.sqrt busyNode [scenarioA_first, idleNode, countOne] h
  refine ⟨h, ?_, ?_⟩
  · rw [hcnt]
    norm_num [scenarioA_first, idleNode, countOne, blank]
  · rw [hmean (by norm_num [scenarioA_first, idleNode, countOne, blank])]
    norm_num [scenarioA_first, idleNode, countOne, blank]

/-! ### Commutativity outside the capacity-derived fields -/

omit [FloorRing R] in
theorem guarded_mean_comm (ca cb : ℕ) (ma mb : R) :
    (if addUnsigned ca cb ≠ 0 then
        ((ca : R) * ma + (cb : R) * mb) / ((addUnsigned ca cb : ℕ) : R)
      else 0) =
      (if addUnsigned cb ca ≠ 0 then
        ((cb : R) * mb + (ca : R) * ma) / ((addUnsigned cb ca : ℕ) : R)
      else 0) := by
  rw [addUnsigned_comm ca cb, add_comm ((ca : R) * ma)]

omit [FloorRing R] in
theorem guarded_nat_quotient_comm (ta tb ca cb : ℕ) :
    (if addUnsigned ca cb ≠ 0 then ((addULongLong ta tb / addUnsigned ca cb : ℕ) : R) else 0) =
      (if addUnsigned cb ca ≠ 0 then ((addULongLong tb ta / addUnsigned cb ca : ℕ) : R)
        else 0) := by
  rw [addUnsigned_comm ca cb, addULongLong_comm ta tb]

omit [FloorRing R] in
theorem guarded_quotient_comm (sa sb : R) (ca cb : ℕ) :
    (if addUnsigned ca cb ≠ 0 then (sa + sb) / ((addUnsigned ca cb : ℕ) : R) else 0) =
      (if addUnsigned cb ca ≠ 0 then (sb + sa) / ((addUnsigned cb ca : ℕ) : R) else 0) := by
  rw [addUnsigned_comm ca cb, add_comm sa]

/-- C19: for all snapshots `a` and `b`, aggregating `b` into `a` and aggregating
`a` into `b` agree on every field other than `memory_node_capacity`,
`ebs_node_capacity`, `required_memory_node`, `required_ebs_node`,
`min_occupancy_memory_public_ip` and `min_occupancy_memory_private_ip`. -/
theorem aggregate_comm_outside_capacity (sqrt : R → R) (a b : SummaryStats R) :
    (aggregate sqrt a b).key_access_cnt = (aggregate sqrt b a).key_access_cnt ∧
    (aggregate sqrt a b).key_access_mean = (aggregate sqrt b a).key_access_mean ∧
    (aggregate sqrt a b).key_access_std = (aggregate sqrt b a).key_access_std ∧
    (aggregate sqrt a b).total_memory_count = (aggregate sqrt b a).total_memory_count ∧
    (aggregate sqrt a b).total_memory_access = (aggregate sqrt b a).total_memory_access ∧
    (aggregate sqrt a b).total_ebs_count = (aggregate sqrt b a).total_ebs_count ∧
    (aggregate sqrt a b).total_ebs_access = (aggregate sqrt b a).total_ebs_access ∧
    (aggregate sqrt a b).total_memory_consumption = (aggregate sqrt b a).total_memory_consumption ∧
    (aggregate sqrt a b).total_ebs_consumption = (aggregate sqrt b a).total_ebs_consumption ∧
    (aggregate sqrt a b).max_memory_consumption_percentage = (aggregate sqrt b a).max_memory_consumption_percentage ∧
    (aggregate sqrt a b).max_ebs_consumption_percentage = (aggregate sqrt b a).max_ebs_consumption_percentage ∧
    (aggregate sqrt a b).avg_memory_consumption_percentage = (aggregate sqrt b a).avg_memory_consumption_percentage ∧
    (aggregate sqrt a b).avg_ebs_consumption_percentage = (aggregate sqrt b a).avg_ebs_consumption_percentage ∧
    (aggregate sqrt a b).max_memory_occupancy = (aggregate sqrt b a).max_memory_occupancy ∧
    (aggregate sqrt a b).min_memory_occupancy = (aggregate sqrt b a).min_memory_occupancy ∧
    (aggregate sqrt a b).avg_memory_occupancy = (aggregate sqrt b a).avg_memory_occupancy ∧
    (aggregate sqrt a b).sum_memory_occupancy = (aggregate sqrt b a).sum_memory_occupancy ∧
    (aggregate sqrt a b).cnt_memory_occupancy = (aggregate sqrt b a).cnt_memory_occupancy ∧
    (aggregate sqrt a b).max_ebs_occupancy = (aggregate sqrt b a).max_ebs_occupancy ∧
    (aggregate sqrt a b).min_ebs_occupancy = (aggregate sqrt b a).min_ebs_occupancy ∧
    (aggregate sqrt a b).avg_ebs_occupancy = (aggregate sqrt b a).avg_ebs_occupancy ∧
    (aggregate sqrt a b).sum_ebs_occupancy = (aggregate sqrt b a).sum_ebs_occupancy ∧
    (aggregate sqrt a b).cnt_ebs_occupancy = (aggregate sqrt b a).cnt_ebs_occupancy ∧
    (aggregate sqrt a b).sum_latency = (aggregate sqrt b a).sum_latency ∧
    (aggregate sqrt a b).cnt_latency = (aggregate sqrt b a).cnt_latency ∧
    (aggregate sqrt a b).avg_latency = (aggregate sqrt b a).avg_latency ∧
    (aggregate sqrt a b).total_throughput = (aggregate sqrt b a).total_throughput :=
  ⟨addUnsigned_comm _ _,
    guarded_mean_comm _ _ _ _,
    congrArg sqrt (add_comm _ _),
    addUnsigned_comm _ _,
    addUnsigned_comm _ _,
    addUnsigned_comm _ _,
    addUnsigned_comm _ _,
    addULongLong_comm _ _,
    addULongLong_comm _ _,
    max_comm _ _,
    max_comm _ _,
    guarded_nat_quotient_comm _ _ _ _,
    guarded_nat_quotient_comm _ _ _ _,
    max_comm _ _,
    min_comm _ _,
    guarded_quotient_comm _ _ _ _,
    add_comm _ _,
    addUnsigned_comm _ _,
    max_comm _ _,
    min_comm _ _,
    guarded_quotient_comm _ _ _ _,
    add_comm _ _,
    addUnsigned_comm _ _,
    add_comm _ _,
    addUnsigned_comm _ _,
    guarded_quotient_comm _ _ _ _,
    add_comm _ _⟩

/-! ### `clear()` and the capacity fields -/

/-- C20: `clear()` leaves `memory_node_capacity` and `ebs_node_capacity` as they
were and resets every other field to a value that does not depend on the state
before the call; so the capacity of a cleared accumulator is whatever it held
before, until the next `aggregate` overwrites it with its operand's capacity. -/
theorem clear_keeps_capacity (s : SummaryStats R) :
    s.clear.memory_node_capacity = s.memory_node_capacity ∧
    s.clear.ebs_node_capacity = s.ebs_node_capacity ∧
    s.clear =
      {
        key_access_cnt := 0
        key_access_mean := 0
        key_access_std := 0
        total_memory_count := 0
        total_memory_access := 0
        total_ebs_count := 0
        total_ebs_access := 0
        total_memory_consumption := 0
        total_ebs_consumption := 0
        max_memory_consumption_percentage := 0
        max_ebs_consumption_percentage := 0
        avg_memory_consumption_percentage := 0
        avg_ebs_consumption_percentage := 0
        memory_node_capacity := s.memory_node_capacity
        ebs_node_capacity := s.ebs_node_capacity
        required_memory_node := 0
        required_ebs_node := 0
        max_memory_occupancy := 0
        min_memory_occupancy := 1
        avg_memory_occupancy := 0
        sum_memory_occupancy := 0
        cnt_memory_occupancy := 0
        max_ebs_occupancy := 0
        min_ebs_occupancy := 1
        avg_ebs_occupancy := 0
        sum_ebs_occupancy := 0
        cnt_ebs_occupancy := 0
        min_occupancy_memory_public_ip := Address.empty
        min_occupancy_memory_private_ip := Address.empty
        sum_latency := 0
        cnt_latency := 0
        avg_latency := 0
        total_throughput := 0 } ∧
    (∀ (sqrt : R → R) (ss : SummaryStats R),
      (aggregate sqrt s.clear ss).memory_node_capacity = ss.memory_node_capacity ∧
      (aggregate sqrt s.clear ss).ebs_node_capacity = ss.ebs_node_capacity) :=
  ⟨rfl, rfl, rfl, fun _ _ => ⟨rfl, rfl⟩⟩

/-- C20 on a concrete state: clearing `busyNode` keeps its capacities 500 and
2000 while its access count drops to 0. -/
theorem clear_keeps_capacity_example :
    busyNode.clear.memory_node_capacity = 500 ∧ busyNode.clear.ebs_node_capacity = 2000 ∧
    busyNode.clear.key_access_cnt = 0 ∧ busyNode.key_access_cnt = 7 :=
  ⟨rfl, rfl, rfl, rfl⟩

end SummaryStats

end Fluent
